import Mathlib

/-!
Verification development for the TikTok Creative Factory generation pipeline.

This file shallowly embeds the prompt-assembly and generation-dispatch logic of
the repository (the structured prompt builders and the variation-spec generator
of `src/unnamed/part_004`, the structured-prompt generation route of
`src/src/app/page.tsx`, and the video wrapper request construction of
`src/src/lib/vertexAI.ts` / `src/unnamed/part_004`) and proves or refutes the
frozen claims about it.

Modelling conventions:
* JavaScript strings are Lean `String`s; `undefined`/optional values are
  `Option`; JavaScript falsiness of a string is emptiness.
* External calls (the generative-model SDK) are oracles passed in as `Except`
  values or functions; a `.error` value models the promise rejecting / the call
  throwing.  The `GEMINI_API_KEY` environment precondition is assumed to hold
  (`getClient()` succeeds), as every path of interest calls the client anyway.
* `JSON.parse` is modelled by an executable recursive-descent parser over a
  `Js` value type; JSON numbers keep their source literal (no claim depends on
  numeric values).
* Binary image buffers are byte lists; the base64 re-encoding applied at the
  vendor boundary is injective and is modelled by keeping the bytes.
-/

namespace TCF

/-- Byte buffer (Node `Buffer`). -/
abbrev Buffer := List Nat

/-! ## Small JavaScript-semantics string helpers -/

/-- JavaScript `a || d` for a possibly-absent string: `undefined` and the empty
string are falsy. -/
def jsOrOpt (o : Option String) (d : String) : String :=
  match o with
  | none => d
  | some s => if s = "" then d else s

/-- JavaScript `s || d` for a present string (empty string is falsy). -/
def jsOrStr (s d : String) : String :=
  if s = "" then d else s

/-- JavaScript truthiness of a possibly-absent string. -/
def optTruthy (o : Option String) : Bool :=
  match o with
  | none => false
  | some s => s ≠ ""

/-- JavaScript `n || d` for a possibly-absent number (0 is falsy). -/
def jsOrNat (o : Option Nat) (d : Nat) : Nat :=
  match o with
  | none => d
  | some n => if n = 0 then d else n

/-- Whitespace set used by JavaScript `String.prototype.trim` (ASCII part;
the prompt texts in scope contain no exotic Unicode spaces). -/
def jsIsWs (c : Char) : Bool :=
  c = ' ' ∨ c = '\n' ∨ c = '\t' ∨ c = '\r' ∨ c = Char.ofNat 11 ∨ c = Char.ofNat 12

/-- JavaScript `s.trim()`. -/
def jsTrim (s : String) : String :=
  ⟨(s.data.dropWhile jsIsWs).reverse.dropWhile jsIsWs |>.reverse⟩

/-- Does `l` start with `p`? (character-list prefix test) -/
def strStarts : List Char → List Char → Bool
  | [], _ => true
  | _ :: _, [] => false
  | p :: ps, c :: cs => p = c && strStarts ps cs

/-- JavaScript `s.startsWith(p)`. -/
def jsStartsWith (s p : String) : Bool :=
  strStarts p.data s.data

/-- Does `l` end with `p`? -/
def jsEndsWith (s p : String) : Bool :=
  strStarts p.data.reverse s.data.reverse

/-- Substring occurrence, as a proposition: `needle` occurs contiguously in
`hay`. -/
def occursIn (needle hay : String) : Prop :=
  ∃ a b : String, hay = a ++ needle ++ b

/-- Join a list of strings with a separator (JavaScript `Array.join`). -/
def joinSep (sep : String) : List String → String
  | [] => ""
  | [s] => s
  | s :: rest => s ++ sep ++ joinSep sep rest

/-- Replace the first occurrence of `pat` in `s` by `rep`
(JavaScript `s.replace(pat, rep)` with a string pattern). -/
def replaceFirstAux (pat rep : List Char) : List Char → List Char
  | [] => []
  | c :: cs =>
    if strStarts pat (c :: cs) then rep ++ (c :: cs).drop pat.length
    else c :: replaceFirstAux pat rep cs

/-- JavaScript `s.replace('s', '')`-style first-occurrence replacement. -/
def jsReplaceFirst (s pat rep : String) : String :=
  ⟨replaceFirstAux pat.data rep.data s.data⟩

/-- JavaScript `parseInt` restricted to the base-10 sign-and-digits case
(radix prefixes such as `0x` do not arise for the duration strings in scope):
skips leading whitespace, accepts an optional sign, then parses leading
digits; yields `none` (NaN) when no digit is found. -/
def parseIntTS (s : String) : Option Int :=
  let l := s.data.dropWhile jsIsWs
  let (neg, l) :=
    match l with
    | '-' :: rest => (true, rest)
    | '+' :: rest => (false, rest)
    | _ => (false, l)
  let ds := l.takeWhile Char.isDigit
  if ds = [] then none
  else
    let n : Nat := ds.foldl (fun a c => a * 10 + (c.toNat - 48)) 0
    some (if neg then -(n : Int) else (n : Int))

/-- Rendering of a JavaScript number produced by `parseInt` inside a template
literal: `NaN` renders as `"NaN"`. -/
def renderParseInt (s : String) : String :=
  match parseIntTS s with
  | none => "NaN"
  | some i => toString i

/-! ## A model of `JSON.parse`

`JSON.parse` is a JavaScript builtin; it is modelled here by an executable
recursive-descent parser.  Numbers keep their source text (no claim in scope
depends on numeric values).  `none` models the parse throwing `SyntaxError`. -/

/-- JSON values as produced by `JSON.parse`. -/
inductive Js where
  | null : Js
  | bool (b : Bool) : Js
  | num (lit : String) : Js
  | str (s : String) : Js
  | arr (elems : List Js) : Js
  | obj (fields : List (String × Js)) : Js

/-- JSON whitespace. -/
def jsonWs (c : Char) : Bool :=
  c = ' ' ∨ c = '\n' ∨ c = '\t' ∨ c = '\r'

/-- Decode a JSON string escape character. -/
def jsonEscape (c : Char) : Char :=
  if c = 'n' then '\n'
  else if c = 't' then '\t'
  else if c = 'r' then '\r'
  else if c = 'b' then Char.ofNat 8
  else if c = 'f' then Char.ofNat 12
  else c

/-- Hexadecimal digit test. -/
def isHexDig (c : Char) : Bool :=
  c.isDigit ∨ ('a' ≤ c ∧ c ≤ 'f') ∨ ('A' ≤ c ∧ c ≤ 'F')

/-- Parse the body of a JSON string literal (after the opening quote),
returning the decoded characters and the rest after the closing quote.
`\uXXXX` escapes are decoded from hex. -/
def jsonString : List Char → Option (List Char × List Char)
  | [] => none
  | '"' :: rest => some ([], rest)
  | '\\' :: c :: rest =>
    if c = 'u' then
      match rest with
      | h1 :: h2 :: h3 :: h4 :: rest' =>
        if isHexDig h1 ∧ isHexDig h2 ∧ isHexDig h3 ∧ isHexDig h4 then
          let hv (h : Char) : Nat :=
            if h.isDigit then h.toNat - 48
            else if 'a' ≤ h then h.toNat - 87 else h.toNat - 55
          match jsonString rest' with
          | some (cs, rem) => some (Char.ofNat (((hv h1 * 16 + hv h2) * 16 + hv h3) * 16 + hv h4) :: cs, rem)
          | none => none
        else none
      | _ => none
    else
      match jsonString rest with
      | some (cs, rem) => some (jsonEscape c :: cs, rem)
      | none => none
  | c :: rest =>
    match jsonString rest with
    | some (cs, rem) => some (c :: cs, rem)
    | none => none

/-- Parse a JSON number literal, returning its text and the rest. -/
def jsonNumber (l : List Char) : Option (List Char × List Char) :=
  let (sign, l1) := match l with
    | '-' :: rest => (['-'], rest)
    | _ => (([] : List Char), l)
  let ds := l1.takeWhile Char.isDigit
  if ds = [] then none
  else
    let l2 := l1.drop ds.length
    let (frac, l3) := match l2 with
      | '.' :: rest =>
        let fs := rest.takeWhile Char.isDigit
        if fs = [] then (([] : List Char), l2) else ('.' :: fs, rest.drop fs.length)
      | _ => (([] : List Char), l2)
    let (expo, l4) := match l3 with
      | e :: rest =>
        if e = 'e' ∨ e = 'E' then
          let (es, rest') := match rest with
            | s :: r => if s = '+' ∨ s = '-' then ([e, s], r) else ([e], rest)
            | [] => ([e], rest)
          let xs := rest'.takeWhile Char.isDigit
          if xs = [] then (([] : List Char), l3) else (es ++ xs, rest'.drop xs.length)
        else (([] : List Char), l3)
      | [] => (([] : List Char), l3)
    some (sign ++ ds ++ frac ++ expo, l4)

mutual

/-- Parse one JSON value (fuel-indexed recursive descent). -/
def jsonValue : Nat → List Char → Option (Js × List Char)
  | 0, _ => none
  | fuel + 1, l =>
    match l.dropWhile jsonWs with
    | 'n' :: 'u' :: 'l' :: 'l' :: rest => some (.null, rest)
    | 't' :: 'r' :: 'u' :: 'e' :: rest => some (.bool true, rest)
    | 'f' :: 'a' :: 'l' :: 's' :: 'e' :: rest => some (.bool false, rest)
    | '"' :: rest =>
      match jsonString rest with
      | some (cs, rem) => some (.str ⟨cs⟩, rem)
      | none => none
    | '[' :: rest =>
      (match rest.dropWhile jsonWs with
       | ']' :: rem => some (.arr [], rem)
       | _ =>
         match jsonElems fuel rest with
         | some (es, rem) => some (.arr es, rem)
         | none => none)
    | c :: rest =>
      if c = Char.ofNat 123 then
        match rest.dropWhile jsonWs with
        | r :: rem =>
          if r = Char.ofNat 125 then some (.obj [], rem)
          else
            match jsonFields fuel rest with
            | some (fs, rem') => some (.obj fs, rem')
            | none => none
        | [] => none
      else
        match jsonNumber (c :: rest) with
        | some (lit, rem) => some (.num ⟨lit⟩, rem)
        | none => none
    | [] => none

/-- Parse a non-empty comma-separated list of array elements plus the closing
bracket. -/
def jsonElems : Nat → List Char → Option (List Js × List Char)
  | 0, _ => none
  | fuel + 1, l =>
    match jsonValue fuel l with
    | some (v, rest) =>
      match rest.dropWhile jsonWs with
      | ',' :: rest' =>
        match jsonElems fuel rest' with
        | some (vs, rem) => some (v :: vs, rem)
        | none => none
      | ']' :: rem => some ([v], rem)
      | _ => none
    | none => none

/-- Parse a non-empty comma-separated list of object fields plus the closing
brace. -/
def jsonFields : Nat → List Char → Option (List (String × Js) × List Char)
  | 0, _ => none
  | fuel + 1, l =>
    match l.dropWhile jsonWs with
    | '"' :: rest =>
      match jsonString rest with
      | some (k, rest') =>
        match rest'.dropWhile jsonWs with
        | ':' :: rest'' =>
          match jsonValue fuel rest'' with
          | some (v, rest3) =>
            match rest3.dropWhile jsonWs with
            | ',' :: rest4 =>
              match jsonFields fuel rest4 with
              | some (fs, rem) => some ((⟨k⟩, v) :: fs, rem)
              | none => none
            | r :: rem =>
              if r = Char.ofNat 125 then some ([(⟨k⟩, v)], rem) else none
            | [] => none
          | none => none
        | _ => none
      | none => none
    | _ => none

end

/-- The model of `JSON.parse`: parse one value and require only whitespace to
remain. -/
def jsonParse (s : String) : Option Js :=
  match jsonValue (s.data.length + 1) s.data with
  | some (v, rest) => if rest.dropWhile jsonWs = [] then some v else none
  | none => none

/-! ## JavaScript value helpers used by the dispatch loop -/

/-- Is a JSON number literal the number zero? -/
def numLitIsZero (lit : String) : Bool :=
  (lit.data.takeWhile (fun c => c ≠ 'e' ∧ c ≠ 'E')).all
    (fun c => ¬c.isDigit ∨ c = '0')

/-- JavaScript truthiness of a parsed JSON value. -/
def jsTruthy : Js → Bool
  | .null => false
  | .bool b => b
  | .num lit => ¬numLitIsZero lit
  | .str s => s ≠ ""
  | .arr _ => true
  | .obj _ => true

/-- JavaScript indexing `v[i]` on a parsed JSON value (`none` = `undefined`).
Arrays index positionally; objects look the numeric key up as a string;
primitives yield `undefined`.  (`null` would throw, but the dispatch loop
never indexes a `null` — `generateVariationSpecs` never returns one.) -/
def jsIndex (v : Js) (i : Nat) : Option Js :=
  match v with
  | .arr l => l.get? i
  | .obj fs => (fs.find? (fun kv => kv.1 = toString i)).map (·.2)
  | _ => none

mutual

/-- Template-literal rendering `${v}` of a parsed JSON value. -/
def jsToString : Js → String
  | .null => "null"
  | .bool b => if b then "true" else "false"
  | .num lit => lit
  | .str s => s
  | .arr l => joinSep "," (jsToStringList l)
  | .obj _ => "[object Object]"

/-- Render each element of a list of JSON values. -/
def jsToStringList : List Js → List String
  | [] => []
  | v :: vs => jsToString v :: jsToStringList vs

end

/-- Template-literal rendering of a possibly-`undefined` value. -/
def jsToStringOpt (v : Option Js) : String :=
  match v with
  | none => "undefined"
  | some v => jsToString v

/-! ## Variation generator (`generateVariationSpecs`, `src/unnamed/part_004`) -/

/-- Variation specification for generated variants. -/
structure VariationSpec where
  lighting : String
  environment : String
  cameraAngle : String
  materials : String

def lightingOptions : List String := [
  "soft natural lighting with diffused shadows",
  "dramatic studio lighting with high contrast",
  "golden hour glow with warm rim lighting",
  "cool blue tones with ethereal atmosphere",
  "warm ambient light with subtle gradients"]

def environmentOptions : List String := [
  "minimal white background with clean aesthetic",
  "textured natural backdrop with organic elements",
  "lifestyle setting with contextual props",
  "abstract gradient background with modern feel",
  "outdoor environment with natural lighting"]

def cameraOptions : List String := [
  "eye-level front view for direct engagement",
  "slight overhead angle at 15 degrees",
  "low angle hero shot creating empowerment",
  "dynamic 3/4 view with depth",
  "top-down flat lay composition"]

def materialOptions : List String := [
  "matte surfaces with soft texture",
  "glossy reflective surfaces with subtle highlights",
  "textured organic materials with natural grain",
  "metallic accents with premium finish",
  "soft fabric textures with gentle folds"]

/-- `generateFallbackVariations` — deterministic fallback variations used when
AI generation fails. -/
def generateFallbackVariations (count : Nat) (factors : List String) : List VariationSpec :=
  (List.range count).map (fun i =>
    { lighting := if factors.contains "lighting" then
        (lightingOptions.getD (i % lightingOptions.length) "") else "standard studio lighting"
      environment := if factors.contains "environment" then
        (environmentOptions.getD (i % environmentOptions.length) "") else "clean studio background"
      cameraAngle := if factors.contains "camera-angle" then
        (cameraOptions.getD (i % cameraOptions.length) "") else "standard product angle"
      materials := if factors.contains "materials" then
        (materialOptions.getD (i % materialOptions.length) "") else "natural product materials" })

/-- A `VariationSpec` viewed as the JavaScript object it is at runtime. -/
def variationSpecJs (v : VariationSpec) : Js :=
  .obj [("lighting", .str v.lighting), ("environment", .str v.environment),
        ("cameraAngle", .str v.cameraAngle), ("materials", .str v.materials)]

/-- The fallback result as a JavaScript array value. -/
def fallbackJs (count : Nat) (factors : List String) : Js :=
  .arr ((generateFallbackVariations count factors).map variationSpecJs)

/-- One pass of `.replace(/```json?\n?/g, "")`: the regex requires the literal
run "```jso", then greedily takes an optional 'n' and an optional newline; all
(non-overlapping, leftmost) occurrences are removed. -/
def stripFence1 : List Char → List Char
  | '`' :: '`' :: '`' :: 'j' :: 's' :: 'o' :: 'n' :: '\n' :: rest => stripFence1 rest
  | '`' :: '`' :: '`' :: 'j' :: 's' :: 'o' :: 'n' :: rest => stripFence1 rest
  | '`' :: '`' :: '`' :: 'j' :: 's' :: 'o' :: '\n' :: rest => stripFence1 rest
  | '`' :: '`' :: '`' :: 'j' :: 's' :: 'o' :: rest => stripFence1 rest
  | c :: cs => c :: stripFence1 cs
  | [] => []

/-- `.replace(/```$/g, "")`: remove a trailing "```" (the `$` anchor matches
only at the very end of the input). -/
def stripFenceEnd (l : List Char) : List Char :=
  if strStarts ['`', '`', '`'] l.reverse then l.take (l.length - 3) else l

/-- The `cleanJson` computation of `generateVariationSpecs`: fence markers are
stripped only when the response starts with "```". -/
def cleanJsonOf (responseText : String) : String :=
  if jsStartsWith responseText "```" then
    jsTrim ⟨stripFenceEnd (stripFence1 responseText.data)⟩
  else responseText

/-- `generateVariationSpecs` — AI-generated variation specifications with a
deterministic fallback.

`aiResult` is the outcome of the external `generateContent` call: `.error`
models the call throwing, `.ok t` a response whose `.text` is `t` (`none` =
`undefined`).  On a successful parse the TypeScript returns the parsed value
unchecked (the `VariationSpec[]` annotation is erased at runtime), so the
result type here is `Js`; a parsed `null` falls back because the subsequent
`variations.length` access throws inside the `try`.  `baseCreativeDirection`
and `brandGuidelines` only feed the AI prompt text, which the oracle
abstracts. -/
def generateVariationSpecs (aiResult : Except Unit (Option String))
    (baseCreativeDirection brandGuidelines : String)
    (varianceFactors : List String) (variantCount : Nat) : Js :=
  if variantCount ≤ 1 ∨ varianceFactors = [] then .arr []
  else
    match aiResult with
    | .error _ => fallbackJs (variantCount - 1) varianceFactors
    | .ok t =>
      let responseText := jsOrOpt (t.map jsTrim) "[]"
      let cleanJson := cleanJsonOf responseText
      match jsonParse cleanJson with
      | none => fallbackJs (variantCount - 1) varianceFactors
      | some .null => fallbackJs (variantCount - 1) varianceFactors
      | some v => v

/-! ## Structured prompt builders (`src/unnamed/part_004`)

The creative-trend preset catalogs are loaded from JSON files that are not part
of the sources under view (`creative-trend-presets.json`,
`video-creative-trend-presets.json`); both builders are therefore parameterized
by their catalog, a string-keyed lookup exactly like the TypeScript `Record`s
`CREATIVE_TREND_PRESETS` / `VIDEO_CREATIVE_TREND_PRESETS`. -/

/-- A creative-trend preset (`{ name, prompt }`). -/
structure Preset where
  name : String
  prompt : String

/-- A preset catalog: lookup by id, `none` for an unknown id (JavaScript
`undefined`). -/
abbrev PresetCatalog := String → Option Preset

/-- The `creativeTrend` selection of the prompt parameters. -/
structure CreativeTrendSel where
  type : String
  presetId : Option String := none
  customPrompt : Option String := none

/-- Optional-field variation specs as consumed by `buildStructuredPrompt`
(section 8); fields may be absent. -/
structure VariationSpecOpt where
  lighting : Option String := none
  environment : Option String := none
  cameraAngle : Option String := none
  materials : Option String := none

/-- `StructuredPromptParams` of the image prompt builder. -/
structure StructuredPromptParams where
  referenceImageInteraction : Option String := none
  referenceImageCount : Nat
  creativeTrend : Option CreativeTrendSel := none
  brandGuidelines : String
  primaryColor : String
  secondaryColor : String
  moodboardImageCount : Nat
  moodboardStartIndex : Nat
  aspectRatio : String
  variantNumber : Option Nat := none
  variationSpecs : Option VariationSpecOpt := none

/-- Section 2 of the image prompt: reference images interaction. -/
def imageInteractionSection (txt : String) : String :=
  "REFERENCE IMAGES INTERACTION:\n" ++ txt ++
  "\n\nComposition Requirements:" ++
  "\n- Ensure seamless integration between referenced elements" ++
  "\n- Match lighting, perspective, and scale across combined elements" ++
  "\n- Blend edges naturally to avoid obvious compositing" ++
  "\n- Maintain consistent depth of field and atmospheric perspective" ++
  "\n- Preserve the quality and detail of key elements from each referenced image"

/-- A creative-trend section. -/
def trendSection (promptText : String) : String :=
  "CREATIVE TREND:\n" ++ promptText

/-- The creative-trend section list (empty when the selection resolves to
nothing), shared in structure by the image and video builders. -/
def trendSections (catalog : PresetCatalog) (ct : Option CreativeTrendSel) : List String :=
  match ct with
  | none => []
  | some sel =>
    if sel.type = "preset" ∧ optTruthy sel.presetId then
      match catalog (sel.presetId.getD "") with
      | some preset => [trendSection preset.prompt]
      | none => []
    else if sel.type = "ai-generated" ∧ optTruthy sel.customPrompt then
      [trendSection (sel.customPrompt.getD "")]
    else []

/-- Section 4 of the image prompt: brand guidelines. -/
def imageBrandSection (bg : String) : String :=
  "BRAND GUIDELINES:\n" ++
  jsOrStr bg "Maintain professional, modern brand aesthetic with clean compositions and premium quality."

/-- Section 5 of the image prompt: color palette. -/
def imageColorSection (pc sc : String) : String :=
  "COLOR PALETTE:\nPrimary Color: " ++ pc ++ "\nSecondary Color: " ++ sc ++
  "\n\nUse these colors as the dominant color scheme throughout the composition. The primary color should be the most prominent, with secondary color as supporting accent."

/-- Section 6 of the image prompt: moodboard references. -/
def moodboardSection (count startIndex : Nat) : String :=
  let moodboardRefs := joinSep ", "
    ((List.range count).map (fun i => "[image " ++ toString (startIndex + i + 1) ++ "]"))
  "LOOK & FEEL REFERENCE (MOODBOARD):\nDraw inspiration from the visual style shown in " ++
  moodboardRefs ++
  ". These images establish the desired mood, lighting quality, composition approach, and aesthetic treatment. Emulate the color grading, atmospheric qualities, texturing methods, and overall visual language present in these references while adapting them to the creative concept."

/-- The image aspect-ratio guidance table. -/
def imageAspectGuidance (ar : String) : Option String :=
  if ar = "9:16" then some "Optimize for vertical mobile viewing with focal point in upper-middle third"
  else if ar = "1:1" then some "Balanced, centered composition suitable for Instagram feed"
  else if ar = "4:5" then some "Slightly vertical composition with breathing room at top and bottom"
  else if ar = "16:9" then some "Cinematic wide composition with horizontal emphasis"
  else none

/-- Section 7 of the image prompt: image specifications. -/
def imageSpecSection (ar : String) : String :=
  "IMAGE SPECIFICATIONS:\nGenerate image in " ++ ar ++ " aspect ratio.\n" ++
  (imageAspectGuidance ar).getD ""

/-- The labeled, present variation parts of section 8. -/
def variationParts (vs : VariationSpecOpt) : List String :=
  (if optTruthy vs.lighting then ["Lighting: " ++ vs.lighting.getD ""] else []) ++
  (if optTruthy vs.environment then ["Environment: " ++ vs.environment.getD ""] else []) ++
  (if optTruthy vs.cameraAngle then ["Camera Angle: " ++ vs.cameraAngle.getD ""] else []) ++
  (if optTruthy vs.materials then ["Materials: " ++ vs.materials.getD ""] else [])

/-- Section 8 of the image prompt (absent when no part is present). -/
def variationSections (variantNumber : Option Nat) (specs : Option VariationSpecOpt) : List String :=
  match variantNumber, specs with
  | some vn, some vs =>
    if vn > 1 then
      match variationParts vs with
      | [] => []
      | parts => ["VARIATION SPECIFICATIONS FOR VARIANT #" ++ toString vn ++ ":\n\n" ++
                  joinSep "\n\n" parts]
    else []
  | _, _ => []

/-- The ordered section list of `buildStructuredPrompt`. -/
def buildStructuredPromptSections (catalog : PresetCatalog)
    (params : StructuredPromptParams) : List String :=
  (if optTruthy params.referenceImageInteraction ∧ params.referenceImageCount > 1
   then [imageInteractionSection (params.referenceImageInteraction.getD "")] else []) ++
  trendSections catalog params.creativeTrend ++
  [imageBrandSection params.brandGuidelines] ++
  [imageColorSection params.primaryColor params.secondaryColor] ++
  (if params.moodboardImageCount > 0
   then [moodboardSection params.moodboardImageCount params.moodboardStartIndex] else []) ++
  [imageSpecSection params.aspectRatio] ++
  variationSections params.variantNumber params.variationSpecs

/-- The fixed section separator. -/
def sectionSep : String := "\n\n---\n\n"

/-- `buildStructuredPrompt` — the image prompt builder. -/
def buildStructuredPrompt (catalog : PresetCatalog) (params : StructuredPromptParams) : String :=
  joinSep sectionSep (buildStructuredPromptSections catalog params)

/-! ### Video prompt builder -/

/-- A video reference image with its purpose tag (`purpose` is a string at
runtime; the route can forward arbitrary strings through its cast). -/
structure VideoReferenceImage where
  index : Nat
  purpose : String
  customDescription : Option String := none

/-- `VideoPromptParams` of the video prompt builder. -/
structure VideoPromptParams where
  referenceImages : List VideoReferenceImage
  creativeTrend : Option CreativeTrendSel := none
  brandGuidelines : String
  primaryColor : String
  secondaryColor : String
  narrative : String
  narrativeTemplate : Option String := none
  aspectRatio : String
  duration : String

/-- The human label of a reference-image purpose (an unknown purpose indexes
the label record at an absent key, rendering as "undefined"). -/
def purposeLabel (img : VideoReferenceImage) : String :=
  if img.purpose = "character" then "Main influencer/character"
  else if img.purpose = "product" then "Product to be featured"
  else if img.purpose = "environment" then "Brand environment/location"
  else if img.purpose = "keyframe" then "Key visual moment"
  else if img.purpose = "style-guide" then "Visual style reference"
  else if img.purpose = "custom" then jsOrOpt img.customDescription "Custom reference"
  else "undefined"

/-- The fixed 8-second notice of the reference-images section. -/
def refImageNote : String :=
  "NOTE: Due to reference image constraints, this video is optimized for 8-second duration with focused, impactful storytelling."

/-- Section 1 of the video prompt: reference images. -/
def videoReferenceSection (imgs : List VideoReferenceImage) : String :=
  let imageDescriptions := joinSep "\n"
    (imgs.map (fun img => "[image " ++ toString img.index ++ "] - " ++ purposeLabel img))
  "REFERENCE IMAGES:\n" ++ imageDescriptions ++
  "\n\nThese images serve as visual anchors for character consistency, environment design, and key visual moments throughout the 8-second video sequence." ++
  "\n\n" ++ refImageNote

/-- The default brand-guidelines text of the video prompt, parameterized by
the effective duration. -/
def videoBrandFallback (effDur : String) : String :=
  "Maintain professional, modern brand aesthetic with clean compositions and premium quality." ++
  "\n\nDO:" ++
  "\n- Maintain consistent brand presence throughout " ++ effDur ++ " video" ++
  "\n- Use smooth, professional camera movements" ++
  "\n- Ensure clear product/brand visibility in key frames" ++
  "\n- Keep pacing energetic and focused (no wasted frames)" ++
  "\n\nDON'T:" ++
  "\n- Attempt complex multi-scene narratives (time too limited)" ++
  "\n- Use slow, lingering shots (must maximize " ++ effDur ++ ")" ++
  "\n- Obscure brand elements with effects or transitions"

/-- Section 3 of the video prompt: brand guidelines. -/
def videoBrandSection (bg effDur : String) : String :=
  "BRAND GUIDELINES:\n" ++ jsOrStr bg (videoBrandFallback effDur)

/-- Section 4 of the video prompt: color palette.  Uses the effective duration
three times and `effectiveDuration.replace('s', '')` once. -/
def videoColorSection (pc sc effDur : String) : String :=
  "COLOR PALETTE:\nPrimary Color: " ++ pc ++ "\nSecondary Color: " ++ sc ++
  "\n\n" ++ "Apply these colors consistently throughout the entire " ++ effDur ++
  " video sequence" ++
  ". The primary color should dominate the color scheme across all frames, with the secondary color as a supporting accent." ++
  "\n\n" ++ "Color Application (" ++ effDur ++ " format):" ++
  "\n- Establish color palette immediately in opening frame" ++
  "\n- Maintain consistent color grading across all " ++ jsReplaceFirst effDur "s" "" ++ " seconds" ++
  "\n- Use primary color in lighting design where appropriate" ++
  "\n- Apply color palette to animated elements and motion graphics"

/-- The narrative timeline guidance appended when reference images are
present. -/
def narrativeGuidanceText : String :=
  "\n\nStructure the narrative to include (within 8 seconds):" ++
  "\n- Opening hook (0-2 seconds) - Immediate visual interest" ++
  "\n- Core moment/action (2-6 seconds) - Main content or transformation" ++
  "\n- Payoff/conclusion (6-8 seconds) - Resolution or call-to-action" ++
  "\n\nKeep scenes minimal, transitions quick or nonexistent, and focus on single impactful moment."

/-- Section 5 of the video prompt: narrative / storyline. -/
def videoNarrativeSection (narrative : String) (hasRef : Bool) : String :=
  "NARRATIVE / STORYLINE:\n" ++ narrative ++ (if hasRef then narrativeGuidanceText else "")

/-- The video aspect-ratio guidance table, parameterized by the rendered
`durationSeconds`. -/
def videoAspectGuidance (dsStr ar : String) : Option String :=
  if ar = "9:16" then some ("9:16 (Vertical/TikTok, Reels, Shorts): Optimize for vertical mobile viewing with key action in center-upper frame. Subject should fill frame appropriately. Ideal for portrait-oriented content and full-screen mobile engagement. " ++ dsStr ++ "-second format perfect for snackable TikTok content.")
  else if ar = "1:1" then some ("1:1 (Square/Instagram Feed): Balanced, centered composition. Works well for product showcases and symmetrical framing. Ensure important elements stay within safe zone. " ++ dsStr ++ "-second duration ideal for looping Instagram feed content.")
  else if ar = "16:9" then some ("16:9 (Landscape/YouTube, Horizontal): Cinematic widescreen composition. Utilize horizontal space efficiently within " ++ dsStr ++ "-second timeframe. Use rule of thirds for subject placement. Ideal for YouTube Shorts introductory clips.")
  else none

/-- The `Duration:` line of the video-specifications section. -/
def durationNote (hasRef : Bool) (effDur : String) : String :=
  if hasRef then "Duration: 8 seconds (reference image constraint with Google Veo 3.1)"
  else "Duration: " ++ effDur

/-- Section 6 of the video prompt: video specifications. -/
def videoSpecSection (ar : String) (hasRef : Bool) (effDur dsStr : String) : String :=
  "VIDEO SPECIFICATIONS:\nGenerate video in " ++ ar ++ " aspect ratio.\n" ++
  durationNote hasRef effDur ++ "\n\n" ++
  ((videoAspectGuidance dsStr ar).getD ((videoAspectGuidance dsStr "9:16").getD "")) ++
  "\n\nFraming Guidelines:" ++
  "\n- Establish framing immediately in first frame (no time for slow reveals)" ++
  "\n- Maintain consistent framing throughout camera movements" ++
  "\n- Ensure subject/product remains properly framed during motion" ++
  "\n- Account for platform-specific safe zones" ++
  "\n- Design for potential looping (" ++ dsStr ++ "-second videos often auto-loop on platforms)"

/-- The effective duration of `buildVideoStructuredPrompt`:
`hasReferenceImages ? "8s" : params.duration`. -/
def videoEffectiveDuration (params : VideoPromptParams) : String :=
  if params.referenceImages.length > 0 then "8s" else params.duration

/-- The ordered section list of `buildVideoStructuredPrompt`. -/
def buildVideoStructuredPromptSections (catalog : PresetCatalog)
    (params : VideoPromptParams) : List String :=
  let hasRef := params.referenceImages.length > 0
  let effDur := videoEffectiveDuration params
  let dsStr := renderParseInt (jsReplaceFirst effDur "s" "")
  (if hasRef then [videoReferenceSection params.referenceImages] else []) ++
  trendSections catalog params.creativeTrend ++
  [videoBrandSection params.brandGuidelines effDur] ++
  [videoColorSection params.primaryColor params.secondaryColor effDur] ++
  [videoNarrativeSection params.narrative hasRef] ++
  [videoSpecSection params.aspectRatio hasRef effDur dsStr]

/-- `buildVideoStructuredPrompt` — the video prompt builder. -/
def buildVideoStructuredPrompt (catalog : PresetCatalog) (params : VideoPromptParams) : String :=
  joinSep sectionSep (buildVideoStructuredPromptSections catalog params)

/-! ## The owned video wrapper's vendor request (`generateVideo`)

`generateVideo` (identical request construction in `src/src/lib/vertexAI.ts`
lines 148-188 and `src/unnamed/part_004` lines 696-736) destructures only
`prompt`, `anchorImages` and `aspectRatio` from its parameters and issues one
`client.models.generateVideos` request.  The base64 re-encoding of the image
bytes is injective and is modelled by keeping the bytes. -/

/-- `VideoGenerationParams` of the owned wrapper. -/
structure VideoGenerationParams where
  prompt : String
  anchorImages : Option (List Buffer) := none
  duration : Option String := none
  aspectRatio : Option String := none
deriving DecidableEq

/-- `ImageGenerationParams` of the owned wrapper. -/
structure ImageGenerationParams where
  prompt : String
  referenceImages : Option (List Buffer) := none
  aspectRatio : Option String := none
  numberOfImages : Option Nat := none
deriving DecidableEq

/-- The default video model id (`VIDEO_MODEL_ID` environment variable unset). -/
def VIDEO_MODEL : String := "veo-3.1-generate-preview"

/-- An image argument of the vendor request. -/
structure VendorImage where
  imageBytes : Buffer
  mimeType : String
deriving DecidableEq

/-- The vendor `generateVideos` request issued by `generateVideo`. -/
structure VendorVideoRequest where
  model : String
  prompt : String
  image : Option VendorImage := none
  aspectRatio : String
deriving DecidableEq

/-- The request `generateVideo` issues to the vendor: with anchor images, at
most 3 are retained and only the first is forwarded as the `image` argument;
`duration` is never read. -/
def vendorVideoRequest (params : VideoGenerationParams) : VendorVideoRequest :=
  let aspectRatio := params.aspectRatio.getD "9:16"
  match params.anchorImages with
  | some anchorImages =>
    if anchorImages.length > 0 then
      let referenceImages := (anchorImages.take 3).map (fun img =>
        VendorImage.mk img "image/png")
      { model := VIDEO_MODEL, prompt := params.prompt,
        image := referenceImages.get? 0, aspectRatio := aspectRatio }
    else
      { model := VIDEO_MODEL, prompt := params.prompt, image := none, aspectRatio := aspectRatio }
  | none =>
    { model := VIDEO_MODEL, prompt := params.prompt, image := none, aspectRatio := aspectRatio }

/-! ## The structured-prompt generation route (`src/src/app/page.tsx`, `POST`)

The route is modelled as a function from the parsed configuration, the
uploaded files, and the external-call oracles to the ordered list of
server-sent events together with the external generation calls made.  The
stream is always closed after the last event.  Notes:
* The malformed-configuration-JSON path (one `error` event, then close) and a
  hypothetical `enqueue` failure after close are not modelled.
* `basePrompt` / `buildTrendPrompt` are computed by the route but never used
  by it; they are omitted.
* The `progressBase` floor `25 + Math.floor((i / variantCount) * 60)` is
  modelled with exact natural division; IEEE doubles agree with the exact
  floor throughout the documented `variantCount` range 1–10.
* `generateCreativeTrendFromDescription` / the video variant rethrow fixed
  messages on failure, which the top-level handler reports. -/

/-- The parsed `config` object of a request (all fields optional as in the
TypeScript interface, `protocolType` a string — any value other than
`"IMAGE"` takes the video branch). -/
structure GenerationConfig where
  protocolType : String
  trendType : Option String := none
  brandGuidelines : Option String := none
  primaryColor : Option String := none
  secondaryColor : Option String := none
  aspectRatio : Option String := none
  variantCount : Option Nat := none
  varianceFactors : Option (List String) := none
  useAIStoryline : Option Bool := none
  narrative : Option String := none
  videoLength : Option String := none
  useImageInteraction : Option Bool := none
  imageInteractionDescription : Option String := none
  creativeTrendType : Option String := none
  selectedPreset : Option String := none
  aiTrendDescription : Option String := none
  imagePurposes : Option (List String) := none
  customPurposeDescriptions : Option (List String) := none
  narrativeTemplate : Option String := none
  videoCreativeTrendType : Option String := none
  selectedVideoPreset : Option String := none
  aiVideoTrendDescription : Option String := none

/-- The multipart form of a request: presence of a parseable `config` field,
and the uploaded buffers by key prefix (`productImage_*`, `lookAndFeel`,
`anchorImage_*`), product entries preceding `lookAndFeel` entries. -/
structure FormInput where
  configPresent : Bool := true
  productImages : List Buffer := []
  lookAndFeelImages : List Buffer := []
  anchorImages : List Buffer := []

/-- `GenerationResult` returned by the generation wrappers. -/
structure GenerationResult where
  type : String
  filePath : String
  fileName : String
  mimeType : String
deriving DecidableEq

/-- Outcomes of the external calls a request can make. -/
structure RouteOracles where
  /-- `generateCreativeTrendFromDescription` (rethrows a fixed message). -/
  trendExpansion : Except Unit String
  /-- `generateVideoCreativeTrendFromDescription` (rethrows a fixed message). -/
  videoTrendExpansion : Except Unit String
  /-- the `generateContent` call inside `generateVariationSpecs`. -/
  variationAi : Except Unit (Option String)
  /-- `generateImage` per dispatch-loop index (`.error` carries the thrown
  message). -/
  imageGen : Nat → Except String GenerationResult
  /-- `generateVideo`. -/
  videoGen : Except String GenerationResult

/-- A server-sent event of the progress stream. -/
inductive SseEvent where
  | status (message : String) (progress : Nat)
  | imageResult (results : List GenerationResult)
  | videoResult (r : GenerationResult) (duration : String) (hasReferenceImages : Bool)
  | errorEv (message : String)
deriving DecidableEq

/-- Everything a request produces: the ordered event stream (closed after the
last event) and the generation calls made. -/
structure RouteOutput where
  events : List SseEvent
  imageCalls : List ImageGenerationParams
  videoCall : Option VideoGenerationParams
deriving DecidableEq

/-- Shorthand for a status event. -/
def stEv (m : String) (p : Nat) : SseEvent := .status m p

/-- Does the request run the image-path AI trend expansion?
(`config.creativeTrendType === "ai" && config.aiTrendDescription`) -/
def trendCond (cfg : GenerationConfig) : Bool :=
  cfg.creativeTrendType = some "ai" ∧ optTruthy cfg.aiTrendDescription

/-- Does the request run the video AI trend expansion? -/
def videoTrendCond (cfg : GenerationConfig) : Bool :=
  cfg.videoCreativeTrendType = some "ai" ∧ optTruthy cfg.aiVideoTrendDescription

/-- Does the image branch request AI variation specs?
(`variantCount > 1 && config.varianceFactors && config.varianceFactors.length > 0`) -/
def varSpecsCond (cfg : GenerationConfig) (variantCount : Nat) : Bool :=
  decide (variantCount > 1) &&
    (match cfg.varianceFactors with
     | some l => !l.isEmpty
     | none => false)

/-- The `creativeTrendConfig` resolution of the route. -/
def creativeTrendConfigOf (cfg : GenerationConfig) (aiGeneratedTrend : Option String) :
    CreativeTrendSel :=
  if cfg.creativeTrendType = some "preset" ∧ optTruthy cfg.selectedPreset then
    { type := "preset", presetId := cfg.selectedPreset }
  else if cfg.creativeTrendType = some "ai" ∧ optTruthy aiGeneratedTrend then
    { type := "ai-generated", customPrompt := aiGeneratedTrend }
  else { type := "skip" }

/-- The `structuredPromptParams` the route builds. -/
def structuredPromptParamsOf (cfg : GenerationConfig) (aiGeneratedTrend : Option String)
    (productImageCount moodboardImageCount : Nat) : StructuredPromptParams :=
  { referenceImageInteraction :=
      if cfg.useImageInteraction = some true then cfg.imageInteractionDescription else none
    referenceImageCount := productImageCount
    creativeTrend := some (creativeTrendConfigOf cfg aiGeneratedTrend)
    brandGuidelines := jsOrOpt cfg.brandGuidelines ""
    primaryColor := jsOrOpt cfg.primaryColor "#25F4EE"
    secondaryColor := jsOrOpt cfg.secondaryColor "#FE2C55"
    moodboardImageCount := moodboardImageCount
    moodboardStartIndex := productImageCount
    aspectRatio := jsOrOpt cfg.aspectRatio "9:16" }

/-- The `baseCreativeDirection` fed to `generateVariationSpecs`. -/
def baseCreativeDirectionOf (cfg : GenerationConfig) (aiGeneratedTrend : Option String) : String :=
  if cfg.creativeTrendType = some "preset" ∧ optTruthy cfg.selectedPreset then
    "Preset: " ++ cfg.selectedPreset.getD ""
  else if cfg.creativeTrendType = some "ai" ∧ optTruthy aiGeneratedTrend then
    aiGeneratedTrend.getD ""
  else "Product photography with professional aesthetic"

/-- JavaScript property access `v.k` on a parsed JSON value
(`none` = `undefined`). -/
def jsGetField (v : Js) (k : String) : Option Js :=
  match v with
  | .obj fs => (fs.find? (fun kv => kv.1 = k)).map (·.2)
  | _ => none

/-- The per-variant variation addendum text built by the dispatch loop for
variant number `variantNo` from a (dynamically typed) spec value. -/
def variationAddendum (spec : Js) (variantNo : Nat) : String :=
  "VARIATION SPECIFICATIONS FOR VARIANT #" ++ toString variantNo ++ ":\n\n" ++
  "Lighting: " ++ jsToStringOpt (jsGetField spec "lighting") ++ "\n\n" ++
  "Environment: " ++ jsToStringOpt (jsGetField spec "environment") ++ "\n\n" ++
  "Camera Angle: " ++ jsToStringOpt (jsGetField spec "cameraAngle") ++ "\n\n" ++
  "Materials: " ++ jsToStringOpt (jsGetField spec "materials")

/-- The prompt the dispatch loop selects for variant index `i` (0-based). -/
def variantPromptOf (structuredPrompt : String) (variationSpecs : Js) (i : Nat) : String :=
  if i = 0 then structuredPrompt
  else
    match jsIndex variationSpecs (i - 1) with
    | some spec =>
      if jsTruthy spec then
        structuredPrompt ++ "\n\n---\n\n" ++ variationAddendum spec (i + 1)
      else structuredPrompt
    | none => structuredPrompt

/-- The image dispatch loop from index `i` with `remaining` iterations left:
emits the per-unit status, makes the call, stops on the first failure. -/
def imageLoopAux (gen : Nat → Except String GenerationResult) (promptOf : Nat → String)
    (refImgs : Option (List Buffer)) (ar : String) (variantCount : Nat) :
    Nat → Nat → List SseEvent × List ImageGenerationParams × Except String (List GenerationResult)
  | _, 0 => ([], [], .ok [])
  | i, remaining + 1 =>
    let ev := stEv ("Generating image " ++ toString (i + 1) ++ " of " ++
                    toString variantCount ++ "...") (25 + i * 60 / variantCount)
    let p : ImageGenerationParams :=
      { prompt := promptOf i, referenceImages := refImgs,
        aspectRatio := some ar, numberOfImages := some 1 }
    match gen i with
    | .error m => ([ev], [p], .error m)
    | .ok res =>
      let rest := imageLoopAux gen promptOf refImgs ar variantCount (i + 1) remaining
      (ev :: rest.1, p :: rest.2.1,
       match rest.2.2 with | .ok l => .ok (res :: l) | .error m => .error m)

/-- The variation specifications the image branch computes (the empty array
when the AI variation step is not requested). -/
def branchVariationSpecs (cfg : GenerationConfig) (or : RouteOracles)
    (aiGeneratedTrend : Option String) : Js :=
  if varSpecsCond cfg (jsOrNat cfg.variantCount 1) then
    generateVariationSpecs or.variationAi
      (baseCreativeDirectionOf cfg aiGeneratedTrend)
      (jsOrOpt cfg.brandGuidelines "") (cfg.varianceFactors.getD [])
      (jsOrNat cfg.variantCount 1)
  else Js.arr []

/-- The status event list of the AI variation-spec step. -/
def branchSpecEvents (cfg : GenerationConfig) : List SseEvent :=
  if varSpecsCond cfg (jsOrNat cfg.variantCount 1) then
    [stEv "AI generating unique variation specs for each variant..." 22]
  else []

/-- The dispatch loop the image branch runs. -/
def imageBranchLoop (cfg : GenerationConfig) (or : RouteOracles)
    (uploadedImages : List Buffer) (structuredPrompt : String)
    (aiGeneratedTrend : Option String) :
    List SseEvent × List ImageGenerationParams × Except String (List GenerationResult) :=
  imageLoopAux or.imageGen
    (variantPromptOf structuredPrompt (branchVariationSpecs cfg or aiGeneratedTrend))
    (if uploadedImages.length > 0 then some uploadedImages else none)
    (jsOrOpt cfg.aspectRatio "9:16") (jsOrNat cfg.variantCount 1)
    0 (jsOrNat cfg.variantCount 1)

/-- The image branch of the route (inside its own try/catch): events emitted
after the "Connecting" status, and the `generateImage` calls made. -/
def imageBranch (cfg : GenerationConfig) (or : RouteOracles)
    (uploadedImages : List Buffer) (structuredPrompt : String)
    (aiGeneratedTrend : Option String) : List SseEvent × List ImageGenerationParams :=
  match (imageBranchLoop cfg or uploadedImages structuredPrompt aiGeneratedTrend).2.2 with
  | .ok results =>
    (branchSpecEvents cfg ++
     (imageBranchLoop cfg or uploadedImages structuredPrompt aiGeneratedTrend).1 ++
     [stEv (toString (jsOrNat cfg.variantCount 1) ++ " image(s) generated successfully!") 90,
      stEv "Preparing for preview..." 95,
      SseEvent.imageResult results],
     (imageBranchLoop cfg or uploadedImages structuredPrompt aiGeneratedTrend).2.1)
  | .error m =>
    (branchSpecEvents cfg ++
     (imageBranchLoop cfg or uploadedImages structuredPrompt aiGeneratedTrend).1 ++
     [SseEvent.errorEv m],
     (imageBranchLoop cfg or uploadedImages structuredPrompt aiGeneratedTrend).2.1)

/-- The reference-image descriptors the route builds from the anchor buffers
and the configured purposes. -/
def buildRefImages (cfg : GenerationConfig) (anchorImageBuffers : List Buffer) :
    List VideoReferenceImage :=
  (List.range anchorImageBuffers.length).map (fun i =>
    { index := i + 1
      purpose := jsOrOpt (cfg.imagePurposes.bind (fun l => l.get? i)) "product"
      customDescription :=
        if cfg.imagePurposes.bind (fun l => l.get? i) = some "custom" then
          cfg.customPurposeDescriptions.bind (fun l => l.get? i)
        else none })

/-- The `videoCreativeTrendConfig` resolution of the route. -/
def videoCreativeTrendConfigOf (cfg : GenerationConfig) (aiGeneratedVideoTrend : Option String) :
    CreativeTrendSel :=
  if cfg.videoCreativeTrendType = some "preset" ∧ optTruthy cfg.selectedVideoPreset then
    { type := "preset", presetId := cfg.selectedVideoPreset }
  else if cfg.videoCreativeTrendType = some "ai" ∧ optTruthy aiGeneratedVideoTrend then
    { type := "ai-generated", customPrompt := aiGeneratedVideoTrend }
  else { type := "skip" }

/-- The `videoPromptParams` the route builds. -/
def videoPromptParamsOf (cfg : GenerationConfig) (anchorImageBuffers : List Buffer)
    (aiGeneratedVideoTrend : Option String) : VideoPromptParams :=
  let hasRef := anchorImageBuffers.length > 0
  { referenceImages := buildRefImages cfg anchorImageBuffers
    creativeTrend := some (videoCreativeTrendConfigOf cfg aiGeneratedVideoTrend)
    brandGuidelines := jsOrOpt cfg.brandGuidelines ""
    primaryColor := jsOrOpt cfg.primaryColor "#25F4EE"
    secondaryColor := jsOrOpt cfg.secondaryColor "#FE2C55"
    narrative := jsOrOpt cfg.narrative "Create an engaging video loop."
    narrativeTemplate := cfg.narrativeTemplate
    aspectRatio := jsOrOpt cfg.aspectRatio "9:16"
    duration := if hasRef then "8s" else jsOrOpt cfg.videoLength "6s" }

/-- The image-path AI trend-expansion step as the route observes it: performed
only under `trendCond`, yielding the expanded text when run. -/
def trendStep (cfg : GenerationConfig) (or : RouteOracles) : Except Unit (Option String) :=
  if trendCond cfg then or.trendExpansion.map some else .ok none

/-- The video AI trend-expansion step as the route observes it. -/
def videoTrendStep (cfg : GenerationConfig) (or : RouteOracles) : Except Unit (Option String) :=
  if videoTrendCond cfg then or.videoTrendExpansion.map some else .ok none

/-- The first two status events of every well-formed request (the file-count
message applies the JavaScript `|| 1` to the total). -/
def routePre1 (form : FormInput) : List SseEvent :=
  [stEv "Initializing AI generation..." 5,
   stEv ("Processing " ++
     toString (if (form.productImages ++ form.lookAndFeelImages).length +
         form.anchorImages.length = 0 then 1
       else (form.productImages ++ form.lookAndFeelImages).length +
         form.anchorImages.length) ++ " uploaded file(s)...") 10]

/-- The status event of the image-path AI trend expansion, when it runs. -/
def routeTrendEvents (cfg : GenerationConfig) : List SseEvent :=
  if trendCond cfg then
    [stEv "AI generating creative trend from your description..." 12]
  else []

/-- The whole `POST` route. -/
def route (imageCatalog videoCatalog : PresetCatalog) (cfg : GenerationConfig)
    (form : FormInput) (or : RouteOracles) : RouteOutput :=
  if ¬form.configPresent then
    { events := [.errorEv "No configuration provided"], imageCalls := [], videoCall := none }
  else
    let uploadedImages := form.productImages ++ form.lookAndFeelImages
    let anchorImageBuffers := form.anchorImages
    let pre1 := routePre1 form
    let trendEvents := routeTrendEvents cfg
    match trendStep cfg or with
    | .error _ =>
      -- a throw here is caught only by the top-level handler: error, close
      { events := pre1 ++ trendEvents ++
          [.errorEv "Failed to generate creative trend from description"],
        imageCalls := [], videoCall := none }
    | .ok aiGeneratedTrend =>
      let productImageCount := form.productImages.length
      let moodboardImageCount := form.lookAndFeelImages.length
      let structuredPrompt := buildStructuredPrompt imageCatalog
        (structuredPromptParamsOf cfg aiGeneratedTrend productImageCount moodboardImageCount)
      let pre2 := trendEvents ++ [stEv "Applying structured prompt template..." 15]
      if cfg.protocolType = "IMAGE" then
        { events := pre1 ++ pre2 ++
            [stEv "Connecting to Nano Banana Pro (gemini-3-pro-image)..." 20] ++
            (imageBranch cfg or uploadedImages structuredPrompt aiGeneratedTrend).1 ++
            [stEv "Complete!" 100],
          imageCalls := (imageBranch cfg or uploadedImages structuredPrompt aiGeneratedTrend).2,
          videoCall := none }
      else
        let hasRef := anchorImageBuffers.length > 0
        let vTrendEvents :=
          if videoTrendCond cfg then
            [stEv "AI generating video creative trend from your description..." 25]
          else []
        match videoTrendStep cfg or with
        | .error _ =>
          -- again only the top-level handler catches: error, close
          { events := pre1 ++ pre2 ++ [stEv "Connecting to Veo 3.1..." 20] ++ vTrendEvents ++
              [.errorEv "Failed to generate video creative trend from description"],
            imageCalls := [], videoCall := none }
        | .ok aiGeneratedVideoTrend =>
          let videoPrompt := buildVideoStructuredPrompt videoCatalog
            (videoPromptParamsOf cfg anchorImageBuffers aiGeneratedVideoTrend)
          let effectiveDuration := if hasRef then "8s" else jsOrOpt cfg.videoLength "6s"
          let vp : VideoGenerationParams :=
            { prompt := videoPrompt
              anchorImages := if anchorImageBuffers.length > 0 then some anchorImageBuffers else none
              duration := some effectiveDuration
              aspectRatio := some (jsOrOpt cfg.aspectRatio "9:16") }
          let tailEvents :=
            match or.videoGen with
            | .ok result =>
              [stEv "Video generated successfully!" 90, stEv "Preparing for preview..." 95,
               SseEvent.videoResult result effectiveDuration hasRef]
            | .error m => [SseEvent.errorEv m]
          { events := pre1 ++ pre2 ++ [stEv "Connecting to Veo 3.1..." 20] ++ vTrendEvents ++
              [stEv "Building structured video prompt..." 30,
               stEv "Generating video loop (this may take a few minutes)..." 40] ++
              tailEvents ++ [stEv "Complete!" 100],
            imageCalls := [], videoCall := some vp }

/-! ## Proof infrastructure: string append and occurrence lemmas -/

theorem strAppend_assoc (a b c : String) : a ++ b ++ c = a ++ (b ++ c) :=
  String.ext (by simp [List.append_assoc])

theorem strAppend_empty_left (s : String) : "" ++ s = s := String.empty_append s

theorem strAppend_empty_right (s : String) : s ++ "" = s := String.append_empty s

theorem occursIn_appendR {n x : String} (h : occursIn n x) (y : String) :
    occursIn n (x ++ y) := by
  obtain ⟨a, b, rfl⟩ := h
  exact ⟨a, b ++ y, by simp [strAppend_assoc]⟩

theorem occursIn_appendL (y : String) {n x : String} (h : occursIn n x) :
    occursIn n (y ++ x) := by
  obtain ⟨a, b, rfl⟩ := h
  exact ⟨y ++ a, b, by simp [strAppend_assoc]⟩

theorem occursIn_self (n : String) : occursIn n n :=
  ⟨"", "", by simp [strAppend_empty_left, strAppend_empty_right]⟩

theorem occursIn_head (n rest : String) : occursIn n (n ++ rest) :=
  ⟨"", rest, by simp [strAppend_empty_left, strAppend_assoc]⟩

/-- A needle occurring in a member of a joined list occurs in the join. -/
theorem occursIn_joinSep (sep : String) {s : String} {l : List String} (hs : s ∈ l)
    {n : String} (hn : occursIn n s) : occursIn n (joinSep sep l) := by
  induction l with
  | nil => cases hs
  | cons a rest ih =>
    cases rest with
    | nil =>
      rcases List.mem_singleton.mp hs with rfl
      exact hn
    | cons b t =>
      rcases List.mem_cons.mp hs with rfl | hmem
      · exact occursIn_appendR (occursIn_appendR hn sep) (joinSep sep (b :: t))
      · exact occursIn_appendL (a ++ sep) (ih hmem)

theorem occursIn_head2 (a b rest : String) : occursIn (a ++ b) (a ++ (b ++ rest)) :=
  ⟨"", rest, by simp [strAppend_empty_left, strAppend_assoc]⟩

theorem occursIn_head3 (a b c rest : String) :
    occursIn (a ++ b ++ c) (a ++ (b ++ (c ++ rest))) :=
  ⟨"", rest, by simp [strAppend_empty_left, strAppend_assoc]⟩

/-! ## C10: duration noninterference of the video wrapper -/

/-- The length of a JavaScript value when it is an array. -/
def resultLength (v : Js) : Option Nat :=
  match v with
  | .arr l => some l.length
  | _ => none

/-- C10: the owned video wrapper's vendor request does not depend on the
`duration` parameter it receives — two calls differing only in `duration`
issue the identical vendor request — and when anchor images are supplied only
the first of the (at most 3 retained) images is forwarded as the vendor's
`image` argument. -/
theorem C10_vendor_request_duration_noninterference :
    (∀ (params : VideoGenerationParams) (d : Option String),
      vendorVideoRequest { params with duration := d } = vendorVideoRequest params) ∧
    (∀ (params : VideoGenerationParams) (imgs : List Buffer),
      params.anchorImages = some imgs → imgs ≠ [] →
      (vendorVideoRequest params).image =
        imgs.head?.map (fun img => VendorImage.mk img "image/png") ∧
      (vendorVideoRequest params).image =
        ((imgs.take 3).map (fun img => VendorImage.mk img "image/png")).head?) ∧
    (∀ params : VideoGenerationParams,
      params.anchorImages = none ∨ params.anchorImages = some [] →
      (vendorVideoRequest params).image = none) := by
  refine ⟨?_, ?_, ?_⟩
  · intro params d
    cases params with
    | mk prompt anchorImages duration aspectRatio =>
      cases anchorImages with
      | none => rfl
      | some imgs => cases imgs <;> rfl
  · intro params imgs h hne
    cases imgs with
    | nil => exact absurd rfl hne
    | cons a t =>
      constructor <;> simp [vendorVideoRequest, h, List.take_cons, List.get?]
  · rintro params (h | h) <;> simp [vendorVideoRequest, h]

/-- Witness for C10 at a concrete input. -/
theorem C10_witness :
    vendorVideoRequest ⟨"p", some [[0], [1], [2], [3]], some "4s", none⟩ =
      vendorVideoRequest ⟨"p", some [[0], [1], [2], [3]], some "8s", none⟩ ∧
    (vendorVideoRequest ⟨"p", some [[0], [1], [2], [3]], some "4s", none⟩).image =
      some ⟨[0], "image/png"⟩ := by
  constructor
  · exact C10_vendor_request_duration_noninterference.1
      ⟨"p", some [[0], [1], [2], [3]], some "8s", none⟩ (some "4s")
  · have h := (C10_vendor_request_duration_noninterference.2.1
      ⟨"p", some [[0], [1], [2], [3]], some "4s", none⟩ [[0], [1], [2], [3]] rfl
      (by decide)).1
    simpa using h

/-! ## C6: the deterministic fallback variations -/

/-- C6: for every count `k ≥ 1` and factor list, the deterministic fallback
produces exactly `k` entries whose four fields are all non-empty, with each
requested factor's field drawn from that factor's fixed 5-item list at index
`i mod 5` and each unrequested factor's field a fixed generic phrase; in
particular, `variantCount = 3` with `varianceFactors = ["lighting"]` and a
throwing AI call yields exactly 2 entries with lighting from fallback indices
0 and 1 and generic text in the other three fields. -/
theorem C6_fallback_population (k : Nat) (factors : List String) (base brand : String)
    (hk : 1 ≤ k) :
    (generateFallbackVariations k factors).length = k ∧
    (∀ i, i < k →
      ∃ v, (generateFallbackVariations k factors).get? i = some v ∧
        v.lighting = (if factors.contains "lighting" then lightingOptions.getD (i % 5) ""
          else "standard studio lighting") ∧
        v.environment = (if factors.contains "environment" then environmentOptions.getD (i % 5) ""
          else "clean studio background") ∧
        v.cameraAngle = (if factors.contains "camera-angle" then cameraOptions.getD (i % 5) ""
          else "standard product angle") ∧
        v.materials = (if factors.contains "materials" then materialOptions.getD (i % 5) ""
          else "natural product materials") ∧
        v.lighting ≠ "" ∧ v.environment ≠ "" ∧ v.cameraAngle ≠ "" ∧ v.materials ≠ "") ∧
    (generateVariationSpecs (.error ()) base brand ["lighting"] 3 =
      Js.arr [variationSpecJs ⟨"soft natural lighting with diffused shadows",
                "clean studio background", "standard product angle", "natural product materials"⟩,
              variationSpecJs ⟨"dramatic studio lighting with high contrast",
                "clean studio background", "standard product angle", "natural product materials"⟩] ∧
     lightingOptions.getD 0 "" = "soft natural lighting with diffused shadows" ∧
     lightingOptions.getD 1 "" = "dramatic studio lighting with high contrast") := by
  have hopt5 : ∀ m, m < 5 →
      lightingOptions.getD m "" ≠ "" ∧ environmentOptions.getD m "" ≠ "" ∧
      cameraOptions.getD m "" ≠ "" ∧ materialOptions.getD m "" ≠ "" := by decide
  refine ⟨?_, ?_, rfl, rfl, rfl⟩
  · simp [generateFallbackVariations]
  · intro i hi
    have hm5 : i % 5 < 5 := Nat.mod_lt _ (by decide)
    refine ⟨{ lighting := if factors.contains "lighting" then lightingOptions.getD (i % 5) ""
                else "standard studio lighting"
              environment := if factors.contains "environment" then environmentOptions.getD (i % 5) ""
                else "clean studio background"
              cameraAngle := if factors.contains "camera-angle" then cameraOptions.getD (i % 5) ""
                else "standard product angle"
              materials := if factors.contains "materials" then materialOptions.getD (i % 5) ""
                else "natural product materials" }, ?_, rfl, rfl, rfl, rfl, ?_, ?_, ?_, ?_⟩
    · show (generateFallbackVariations k factors).get? i = _
      simp only [generateFallbackVariations, List.get?_eq_getElem?, List.getElem?_map]
      rw [List.getElem?_range hi]
      rfl
    · dsimp only
      split
      · exact (hopt5 _ hm5).1
      · simp
    · dsimp only
      split
      · exact (hopt5 _ hm5).2.1
      · simp
    · dsimp only
      split
      · exact (hopt5 _ hm5).2.2.1
      · simp
    · dsimp only
      split
      · exact (hopt5 _ hm5).2.2.2
      · simp

/-- Witness for C6 at a concrete input. -/
theorem C6_witness :
    (generateFallbackVariations 2 ["lighting"]).length = 2 :=
  (C6_fallback_population 2 ["lighting"] "" "" (by decide)).1

/-! ## C2: variation count exactness (refuted: no truncation / top-up) -/

/-- The `cleanJson` string `generateVariationSpecs` parses for a `.text`
value `t` of a successful call. -/
def gvsCleanJson (t : Option String) : String :=
  cleanJsonOf (jsOrOpt (t.map jsTrim) "[]")

/-- C2 counterexample: with `variantCount = 3` and non-empty variance factors,
an upstream call that succeeds with the parseable array `"[]"` makes
`generateVariationSpecs` return 0 entries, not `N − 1 = 2`: nothing is topped
up. -/
theorem C2_counterexample :
    generateVariationSpecs (.ok (some "[]"))
      "Product photography with professional aesthetic" "" ["lighting"] 3 = Js.arr [] ∧
    resultLength (generateVariationSpecs (.ok (some "[]"))
      "Product photography with professional aesthetic" "" ["lighting"] 3) = some 0 ∧
    3 - 1 ≠ 0 := by
  exact ⟨rfl, rfl, by decide⟩

/-- C2 amended: `generateVariationSpecs` returns exactly `N − 1` entries on
the fallback path (throwing call), but a response that parses to an array is
returned unchanged whatever its length — there is no truncation and no
top-up on the AI-success path. -/
theorem C2_variation_count (N : Nat) (factors : List String) (base brand : String)
    (hN : 2 ≤ N) (hf : factors ≠ []) :
    resultLength (generateVariationSpecs (.error ()) base brand factors N) = some (N - 1) ∧
    (∀ (t : Option String) (l : List Js),
      jsonParse (gvsCleanJson t) = some (.arr l) →
      generateVariationSpecs (.ok t) base brand factors N = .arr l) := by
  have hcond : ¬(N ≤ 1 ∨ factors = []) := by
    rintro (h | h)
    · omega
    · exact hf h
  constructor
  · simp only [generateVariationSpecs]
    rw [if_neg hcond]
    simp [fallbackJs, resultLength, generateFallbackVariations]
  · intro t l hparse
    simp only [generateVariationSpecs]
    rw [if_neg hcond]
    simp only [gvsCleanJson] at hparse
    simp only [hparse]

/-- Witness for C2 at concrete inputs. -/
theorem C2_witness :
    resultLength (generateVariationSpecs (.error ()) "" "" ["lighting"] 3) = some 2 ∧
    generateVariationSpecs (.ok (some "[]")) "" "" ["lighting"] 3 = Js.arr [] := by
  exact ⟨(C2_variation_count 3 ["lighting"] "" "" (by decide) (by decide)).1,
         (C2_variation_count 3 ["lighting"] "" "" (by decide) (by decide)).2
           (some "[]") [] rfl⟩

/-! ## C5: error containment of `generateVariationSpecs`
(refuted for valid non-array JSON) -/

/-- C5 counterexample: `"42"` is valid JSON that is not an array, yet
`generateVariationSpecs` returns the raw parsed number unchanged instead of
the deterministic fallback (which is a 2-element array here). -/
theorem C5_counterexample :
    jsonParse "42" = some (Js.num "42") ∧
    generateVariationSpecs (.ok (some "42")) "b" "g" ["lighting"] 3 = Js.num "42" ∧
    resultLength (Js.num "42") = none ∧
    ¬ generateVariationSpecs (.ok (some "42")) "b" "g" ["lighting"] 3 =
        fallbackJs 2 ["lighting"] := by
  refine ⟨rfl, rfl, rfl, ?_⟩
  intro h
  exact Js.noConfusion (show Js.num "42" = Js.arr _ from h)

/-- C5 amended: `generateVariationSpecs` is total (given the API-key
environment precondition of `getClient`): `variantCount ≤ 1` or empty factors
yields the empty array; a throwing external call, unparseable text (after the
code's fence stripping), or a parsed `null` yields the deterministic
fallback; but every other successfully parsed JSON value — including valid
JSON that is not an array — is returned as-is, not replaced by the
fallback. -/
theorem C5_error_containment (N : Nat) (factors : List String) (base brand : String) :
    (∀ aiR, N ≤ 1 ∨ factors = [] →
      generateVariationSpecs aiR base brand factors N = .arr []) ∧
    (2 ≤ N → factors ≠ [] →
      (generateVariationSpecs (.error ()) base brand factors N = fallbackJs (N - 1) factors) ∧
      (∀ t, jsonParse (gvsCleanJson t) = none →
        generateVariationSpecs (.ok t) base brand factors N = fallbackJs (N - 1) factors) ∧
      (∀ t, jsonParse (gvsCleanJson t) = some .null →
        generateVariationSpecs (.ok t) base brand factors N = fallbackJs (N - 1) factors) ∧
      (∀ t v, jsonParse (gvsCleanJson t) = some v → v ≠ .null →
        generateVariationSpecs (.ok t) base brand factors N = v)) := by
  constructor
  · intro aiR h
    simp only [generateVariationSpecs]
    rw [if_pos h]
  · intro hN hf
    have hcond : ¬(N ≤ 1 ∨ factors = []) := by
      rintro (h | h)
      · omega
      · exact hf h
    refine ⟨by simp only [generateVariationSpecs]; rw [if_neg hcond], ?_, ?_, ?_⟩
    · intro t hparse
      simp only [generateVariationSpecs]
      rw [if_neg hcond]
      simp only [gvsCleanJson] at hparse
      simp only [hparse]
    · intro t hparse
      simp only [generateVariationSpecs]
      rw [if_neg hcond]
      simp only [gvsCleanJson] at hparse
      simp only [hparse]
    · intro t v hparse hv
      simp only [generateVariationSpecs]
      rw [if_neg hcond]
      simp only [gvsCleanJson] at hparse
      simp only [hparse]

/-- Witness for C5 at concrete inputs. -/
theorem C5_witness :
    generateVariationSpecs (.error ()) "" "" [] 5 = Js.arr [] ∧
    generateVariationSpecs (.ok (some "not json")) "" "" ["lighting"] 3 =
      fallbackJs 2 ["lighting"] ∧
    generateVariationSpecs (.ok (some "null")) "" "" ["lighting"] 3 =
      fallbackJs 2 ["lighting"] ∧
    generateVariationSpecs (.ok (some "42")) "" "" ["lighting"] 3 = Js.num "42" := by
  refine ⟨(C5_error_containment 5 [] "" "").1 (.error ()) (Or.inr rfl), ?_, ?_, ?_⟩
  · exact ((C5_error_containment 3 ["lighting"] "" "").2 (by decide) (by decide)).2.1
      (some "not json") rfl
  · exact ((C5_error_containment 3 ["lighting"] "" "").2 (by decide) (by decide)).2.2.1
      (some "null") rfl
  · exact ((C5_error_containment 3 ["lighting"] "" "").2 (by decide) (by decide)).2.2.2
      (some "42") (Js.num "42") rfl (by intro h; cases h)

/-! ## Section-header machinery for C7 and C8 -/

theorem strStarts_append_left {pat : List Char} :
    ∀ {a : List Char} (b : List Char), strStarts pat a = true → strStarts pat (a ++ b) = true := by
  induction pat with
  | nil => intro a b _; rfl
  | cons p ps ih =>
    intro a b h
    cases a with
    | nil => simp [strStarts] at h
    | cons c cs =>
      simp only [strStarts, Bool.and_eq_true] at h
      simp only [List.cons_append, strStarts, Bool.and_eq_true]
      exact ⟨h.1, ih b h.2⟩

theorem strStarts_append_eq_false {a : List Char} :
    ∀ {pat : List Char} (b : List Char),
      strStarts (pat.take a.length) a = false → strStarts pat (a ++ b) = false := by
  induction a with
  | nil => intro pat b h; simp [strStarts] at h
  | cons c cs ih =>
    intro pat b h
    cases pat with
    | nil => simp [strStarts] at h
    | cons p ps =>
      simp only [List.length_cons, List.take_succ_cons, strStarts,
        Bool.and_eq_false_iff] at h
      simp only [List.cons_append, strStarts, Bool.and_eq_false_iff]
      rcases h with h | h
      · exact Or.inl h
      · exact Or.inr (ih b h)

/-- A string that extends a literal the pattern is a prefix of starts with
the pattern. -/
theorem jsStartsWith_lit_true {pat lit : String} (rest : String)
    (h : strStarts pat.data lit.data = true) : jsStartsWith (lit ++ rest) pat = true := by
  simp only [jsStartsWith, String.data_append]
  exact strStarts_append_left _ h

/-- A string that extends a literal the pattern mismatches within does not
start with the pattern. -/
theorem jsStartsWith_lit_false {pat lit : String} (rest : String)
    (h : strStarts (pat.data.take lit.data.length) lit.data = false) :
    jsStartsWith (lit ++ rest) pat = false := by
  simp only [jsStartsWith, String.data_append]
  exact strStarts_append_eq_false _ h

/-- Does a section carry the moodboard header? -/
def hasMoodHeader (s : String) : Bool :=
  jsStartsWith s "LOOK & FEEL REFERENCE (MOODBOARD)"

/-- Does a section carry the reference-images-interaction header? -/
def hasInteractionHeader (s : String) : Bool :=
  jsStartsWith s "REFERENCE IMAGES INTERACTION"

/-- Does a section carry the creative-trend header? -/
def hasTrendHeader (s : String) : Bool :=
  jsStartsWith s "CREATIVE TREND"

theorem hm_interaction (txt : String) : hasMoodHeader (imageInteractionSection txt) = false := by
  simp only [hasMoodHeader, imageInteractionSection, strAppend_assoc]
  exact jsStartsWith_lit_false _ (by decide)

theorem hm_trend (t : String) : hasMoodHeader (trendSection t) = false := by
  simp only [hasMoodHeader, trendSection]
  exact jsStartsWith_lit_false _ (by decide)

theorem hm_brand (bg : String) : hasMoodHeader (imageBrandSection bg) = false := by
  simp only [hasMoodHeader, imageBrandSection]
  exact jsStartsWith_lit_false _ (by decide)

theorem hm_color (pc sc : String) : hasMoodHeader (imageColorSection pc sc) = false := by
  simp only [hasMoodHeader, imageColorSection, strAppend_assoc]
  exact jsStartsWith_lit_false _ (by decide)

theorem hm_mood (c s : Nat) : hasMoodHeader (moodboardSection c s) = true := by
  simp only [hasMoodHeader, moodboardSection, strAppend_assoc]
  exact jsStartsWith_lit_true _ (by decide)

theorem hm_spec (ar : String) : hasMoodHeader (imageSpecSection ar) = false := by
  simp only [hasMoodHeader, imageSpecSection, strAppend_assoc]
  exact jsStartsWith_lit_false _ (by decide)

theorem hi_interaction (txt : String) :
    hasInteractionHeader (imageInteractionSection txt) = true := by
  simp only [hasInteractionHeader, imageInteractionSection, strAppend_assoc]
  exact jsStartsWith_lit_true _ (by decide)

theorem hi_trend (t : String) : hasInteractionHeader (trendSection t) = false := by
  simp only [hasInteractionHeader, trendSection]
  exact jsStartsWith_lit_false _ (by decide)

theorem hi_brand (bg : String) : hasInteractionHeader (imageBrandSection bg) = false := by
  simp only [hasInteractionHeader, imageBrandSection]
  exact jsStartsWith_lit_false _ (by decide)

theorem hi_color (pc sc : String) : hasInteractionHeader (imageColorSection pc sc) = false := by
  simp only [hasInteractionHeader, imageColorSection, strAppend_assoc]
  exact jsStartsWith_lit_false _ (by decide)

theorem hi_mood (c s : Nat) : hasInteractionHeader (moodboardSection c s) = false := by
  simp only [hasInteractionHeader, moodboardSection, strAppend_assoc]
  exact jsStartsWith_lit_false _ (by decide)

theorem hi_spec (ar : String) : hasInteractionHeader (imageSpecSection ar) = false := by
  simp only [hasInteractionHeader, imageSpecSection, strAppend_assoc]
  exact jsStartsWith_lit_false _ (by decide)

theorem ht_interaction (txt : String) : hasTrendHeader (imageInteractionSection txt) = false := by
  simp only [hasTrendHeader, imageInteractionSection, strAppend_assoc]
  exact jsStartsWith_lit_false _ (by decide)

theorem ht_trendSec (t : String) : hasTrendHeader (trendSection t) = true := by
  simp only [hasTrendHeader, trendSection]
  exact jsStartsWith_lit_true _ (by decide)

theorem ht_brand (bg : String) : hasTrendHeader (imageBrandSection bg) = false := by
  simp only [hasTrendHeader, imageBrandSection]
  exact jsStartsWith_lit_false _ (by decide)

theorem ht_color (pc sc : String) : hasTrendHeader (imageColorSection pc sc) = false := by
  simp only [hasTrendHeader, imageColorSection, strAppend_assoc]
  exact jsStartsWith_lit_false _ (by decide)

theorem ht_mood (c s : Nat) : hasTrendHeader (moodboardSection c s) = false := by
  simp only [hasTrendHeader, moodboardSection, strAppend_assoc]
  exact jsStartsWith_lit_false _ (by decide)

theorem ht_spec (ar : String) : hasTrendHeader (imageSpecSection ar) = false := by
  simp only [hasTrendHeader, imageSpecSection, strAppend_assoc]
  exact jsStartsWith_lit_false _ (by decide)

theorem ht_vref (imgs : List VideoReferenceImage) :
    hasTrendHeader (videoReferenceSection imgs) = false := by
  simp only [hasTrendHeader, videoReferenceSection, strAppend_assoc]
  exact jsStartsWith_lit_false _ (by decide)

theorem ht_vbrand (bg effDur : String) : hasTrendHeader (videoBrandSection bg effDur) = false := by
  simp only [hasTrendHeader, videoBrandSection]
  exact jsStartsWith_lit_false _ (by decide)

theorem ht_vcolor (pc sc effDur : String) :
    hasTrendHeader (videoColorSection pc sc effDur) = false := by
  simp only [hasTrendHeader, videoColorSection, strAppend_assoc]
  exact jsStartsWith_lit_false _ (by decide)

theorem ht_vnarrative (n : String) (hasRef : Bool) :
    hasTrendHeader (videoNarrativeSection n hasRef) = false := by
  simp only [hasTrendHeader, videoNarrativeSection, strAppend_assoc]
  exact jsStartsWith_lit_false _ (by decide)

theorem ht_vspec (ar : String) (hasRef : Bool) (effDur dsStr : String) :
    hasTrendHeader (videoSpecSection ar hasRef effDur dsStr) = false := by
  simp only [hasTrendHeader, videoSpecSection, strAppend_assoc]
  exact jsStartsWith_lit_false _ (by decide)

/-- The variation-specifications section never carries the moodboard,
interaction, or creative-trend header. -/
theorem variationSections_headers (vn : Option Nat) (vs : Option VariationSpecOpt) :
    (variationSections vn vs).countP hasMoodHeader = 0 ∧
    (variationSections vn vs).countP hasInteractionHeader = 0 ∧
    (variationSections vn vs).countP hasTrendHeader = 0 := by
  have key : ∀ x ∈ variationSections vn vs,
      hasMoodHeader x = false ∧ hasInteractionHeader x = false ∧ hasTrendHeader x = false := by
    intro x hx
    rcases vn with _ | n
    · simp [variationSections] at hx
    rcases vs with _ | v
    · simp [variationSections] at hx
    simp only [variationSections] at hx
    split at hx
    · split at hx
      · simp at hx
      · simp only [List.mem_singleton] at hx
        subst hx
        refine ⟨?_, ?_, ?_⟩ <;>
          simp only [hasMoodHeader, hasInteractionHeader, hasTrendHeader, strAppend_assoc] <;>
          exact jsStartsWith_lit_false _ (by decide)
    · simp at hx
  refine ⟨?_, ?_, ?_⟩ <;> rw [List.countP_eq_zero] <;> intro x hx
  · simp [(key x hx).1]
  · simp [(key x hx).2.1]
  · simp [(key x hx).2.2]

/-- The creative-trend section list never carries the moodboard or
interaction header. -/
theorem trendSections_headers (catalog : PresetCatalog) (ct : Option CreativeTrendSel) :
    (trendSections catalog ct).countP hasMoodHeader = 0 ∧
    (trendSections catalog ct).countP hasInteractionHeader = 0 := by
  have key : ∀ x ∈ trendSections catalog ct,
      hasMoodHeader x = false ∧ hasInteractionHeader x = false := by
    intro x hx
    rcases ct with _ | sel
    · simp [trendSections] at hx
    simp only [trendSections] at hx
    split at hx
    · split at hx
      · simp only [List.mem_singleton] at hx
        subst hx
        exact ⟨hm_trend _, hi_trend _⟩
      · simp at hx
    · split at hx
      · simp only [List.mem_singleton] at hx
        subst hx
        exact ⟨hm_trend _, hi_trend _⟩
      · simp at hx
  constructor <;> rw [List.countP_eq_zero] <;> intro x hx
  · simp [(key x hx).1]
  · simp [(key x hx).2]

/-- With `type = "preset"` and a preset id that is unknown to the catalog
(or falsy), the creative-trend section list is empty. -/
theorem trendSections_unknown_preset (catalog : PresetCatalog) (sel : CreativeTrendSel)
    (pid : String) (ht : sel.type = "preset") (hp : sel.presetId = some pid)
    (hc : catalog pid = none) : trendSections catalog (some sel) = [] := by
  simp only [trendSections]
  by_cases hpid : pid = ""
  · subst hpid
    have h1 : ¬(sel.type = "preset" ∧ optTruthy sel.presetId = true) := by
      rw [hp]
      simp [optTruthy]
    have h2 : ¬(sel.type = "ai-generated" ∧ optTruthy sel.customPrompt = true) := by
      rw [ht]
      simp
    rw [if_neg h1, if_neg h2]
  · have h1 : sel.type = "preset" ∧ optTruthy sel.presetId = true :=
      ⟨ht, by rw [hp]; simp [optTruthy, hpid]⟩
    rw [if_pos h1, hp]
    simp [hc]

/-- Counting over a conditional singleton whose element fails the predicate. -/
theorem countP_if_singleton_false (c : Prop) [Decidable c] (x : String) (p : String → Bool)
    (hx : p x = false) : (if c then [x] else []).countP p = 0 := by
  split <;> simp [List.countP_cons, hx]

/-- Counting over a conditional singleton whose element meets the predicate. -/
theorem countP_if_singleton_true (c : Prop) [Decidable c] (x : String) (p : String → Bool)
    (hx : p x = true) : (if c then [x] else []).countP p = if c then 1 else 0 := by
  split <;> simp [List.countP_cons, hx]

/-! ## C7: section presence in the image prompt -/

/-- The Scenario A request: `variantCount = 1`, trend selection skipped,
brand guidelines "Minimal, Scandinavian.", no moodboard, no interaction. -/
def scenarioAParams : StructuredPromptParams :=
  { referenceImageInteraction := none
    referenceImageCount := 0
    creativeTrend := some { type := "skip" }
    brandGuidelines := "Minimal, Scandinavian."
    primaryColor := "#25F4EE"
    secondaryColor := "#FE2C55"
    moodboardImageCount := 0
    moodboardStartIndex := 0
    aspectRatio := "9:16" }

/-- C7: the image prompt's section list carries a "LOOK & FEEL REFERENCE
(MOODBOARD)"-headed section exactly when moodboard images are supplied, and a
"REFERENCE IMAGES INTERACTION"-headed section exactly when interaction text is
supplied with more than one reference image (the header count characterization
covers both the absence and the "exactly one section re-introduced"
direction); and the Scenario A request renders exactly the three sections
brand guidelines, color palette, and image specifications joined by the fixed
separator with no empty-separator artifacts. -/
theorem C7_section_presence :
    (∀ (catalog : PresetCatalog) (p : StructuredPromptParams),
      (buildStructuredPromptSections catalog p).countP hasMoodHeader =
        (if p.moodboardImageCount > 0 then 1 else 0) ∧
      (buildStructuredPromptSections catalog p).countP hasInteractionHeader =
        (if optTruthy p.referenceImageInteraction = true ∧ p.referenceImageCount > 1
         then 1 else 0)) ∧
    (∀ catalog : PresetCatalog,
      buildStructuredPrompt catalog scenarioAParams =
        imageBrandSection "Minimal, Scandinavian." ++ sectionSep ++
        imageColorSection "#25F4EE" "#FE2C55" ++ sectionSep ++ imageSpecSection "9:16") := by
  constructor
  · intro catalog p
    constructor
    · rw [buildStructuredPromptSections]
      simp only [List.countP_append,
        countP_if_singleton_false _ _ _ (hm_interaction _),
        countP_if_singleton_true _ _ _ (hm_mood _ _),
        (trendSections_headers catalog p.creativeTrend).1,
        (variationSections_headers p.variantNumber p.variationSpecs).1,
        List.countP_cons, List.countP_nil, hm_brand, hm_color, hm_spec]
      simp
    · rw [buildStructuredPromptSections]
      simp only [List.countP_append,
        countP_if_singleton_true _ _ _ (hi_interaction _),
        countP_if_singleton_false _ _ _ (hi_mood _ _),
        (trendSections_headers catalog p.creativeTrend).2,
        (variationSections_headers p.variantNumber p.variationSpecs).2.1,
        List.countP_cons, List.countP_nil, hi_brand, hi_color, hi_spec]
      simp
  · intro catalog
    rfl

/-! ## C8: unknown preset id omits the creative-trend section -/

/-- C8: with a `"preset"` trend selection whose id is not in the catalog,
both the image and the video prompt builders omit the creative-trend section
entirely (no section carries the "CREATIVE TREND" header).  Both builders are
total Lean functions, so no error is raised. -/
theorem C8_unknown_preset_omits_trend (imageCatalog videoCatalog : PresetCatalog)
    (pImg : StructuredPromptParams) (pVid : VideoPromptParams)
    (selI selV : CreativeTrendSel) (pidI pidV : String)
    (hI : pImg.creativeTrend = some selI) (hIt : selI.type = "preset")
    (hIp : selI.presetId = some pidI) (hIc : imageCatalog pidI = none)
    (hV : pVid.creativeTrend = some selV) (hVt : selV.type = "preset")
    (hVp : selV.presetId = some pidV) (hVc : videoCatalog pidV = none) :
    (buildStructuredPromptSections imageCatalog pImg).countP hasTrendHeader = 0 ∧
    (buildVideoStructuredPromptSections videoCatalog pVid).countP hasTrendHeader = 0 := by
  have h1 := trendSections_unknown_preset imageCatalog selI pidI hIt hIp hIc
  have h2 := trendSections_unknown_preset videoCatalog selV pidV hVt hVp hVc
  constructor
  · rw [buildStructuredPromptSections, hI, h1]
    simp only [List.countP_append,
      countP_if_singleton_false _ _ _ (ht_interaction _),
      countP_if_singleton_false _ _ _ (ht_mood _ _),
      (variationSections_headers pImg.variantNumber pImg.variationSpecs).2.2,
      List.countP_cons, List.countP_nil, ht_brand, ht_color, ht_spec]
    simp
  · rw [buildVideoStructuredPromptSections, hV, h2]
    simp only [List.countP_append,
      countP_if_singleton_false _ _ _ (ht_vref _),
      List.countP_cons, List.countP_nil, ht_vbrand, ht_vcolor, ht_vnarrative, ht_vspec]
    simp

/-- Witness for C8 at a concrete input: an empty catalog and the preset id
"does-not-exist". -/
theorem C8_witness :
    (buildStructuredPromptSections (fun _ => none)
      { referenceImageCount := 0
        creativeTrend := some { type := "preset", presetId := some "does-not-exist" }
        brandGuidelines := "b", primaryColor := "p", secondaryColor := "s"
        moodboardImageCount := 0, moodboardStartIndex := 0
        aspectRatio := "9:16" }).countP hasTrendHeader = 0 ∧
    (buildVideoStructuredPromptSections (fun _ => none)
      { referenceImages := []
        creativeTrend := some { type := "preset", presetId := some "does-not-exist" }
        brandGuidelines := "b", primaryColor := "p", secondaryColor := "s"
        narrative := "n", aspectRatio := "9:16", duration := "6s" }).countP hasTrendHeader = 0 :=
  C8_unknown_preset_omits_trend (fun _ => none) (fun _ => none) _ _
    { type := "preset", presetId := some "does-not-exist" }
    { type := "preset", presetId := some "does-not-exist" }
    "does-not-exist" "does-not-exist" rfl rfl rfl rfl rfl rfl rfl rfl

/-! ## C1: duration lock -/

theorem colorSection_occ_application (pc sc effDur : String) :
    occursIn ("Color Application (" ++ effDur ++ " format):")
      (videoColorSection pc sc effDur) := by
  simp only [videoColorSection, strAppend_assoc]
  repeat
    first
    | exact occursIn_head3 _ _ _ _
    | exact occursIn_head2 _ _ _
    | exact occursIn_head _ _
    | exact occursIn_self _
    | apply occursIn_appendL

theorem colorSection_occ_apply (pc sc effDur : String) :
    occursIn ("Apply these colors consistently throughout the entire " ++ effDur ++
      " video sequence") (videoColorSection pc sc effDur) := by
  simp only [videoColorSection, strAppend_assoc]
  repeat
    first
    | exact occursIn_head3 _ _ _ _
    | exact occursIn_head2 _ _ _
    | exact occursIn_head _ _
    | exact occursIn_self _
    | apply occursIn_appendL

theorem refSection_occ_note (imgs : List VideoReferenceImage) :
    occursIn refImageNote (videoReferenceSection imgs) := by
  simp only [videoReferenceSection, strAppend_assoc]
  repeat
    first
    | exact occursIn_head _ _
    | exact occursIn_self _
    | apply occursIn_appendL

theorem specSection_occ_durationNote (ar : String) (hasRef : Bool) (effDur dsStr : String) :
    occursIn (durationNote hasRef effDur) (videoSpecSection ar hasRef effDur dsStr) := by
  simp only [videoSpecSection, strAppend_assoc]
  apply occursIn_appendL
  apply occursIn_appendL
  apply occursIn_appendL
  exact occursIn_head _ _

/-- The color-palette section belongs to every built video section list. -/
theorem colorSection_mem (catalog : PresetCatalog) (params : VideoPromptParams) :
    videoColorSection params.primaryColor params.secondaryColor (videoEffectiveDuration params) ∈
      buildVideoStructuredPromptSections catalog params := by
  simp [buildVideoStructuredPromptSections]

/-- The video-specifications section belongs to every built video section
list. -/
theorem specSection_mem (catalog : PresetCatalog) (params : VideoPromptParams) :
    videoSpecSection params.aspectRatio (decide (params.referenceImages.length > 0))
      (videoEffectiveDuration params)
      (renderParseInt (jsReplaceFirst (videoEffectiveDuration params) "s" "")) ∈
      buildVideoStructuredPromptSections catalog params := by
  simp [buildVideoStructuredPromptSections]

/-- The effective-duration text of `buildVideoStructuredPrompt` occurs where
the claim says it does: in the color-palette guidance (twice), in the
reference-images notice and fixed 8-second Duration line when reference
images are present, and in the `Duration:` line otherwise. -/
theorem video_prompt_occurrences (catalog : PresetCatalog) (params : VideoPromptParams) :
    occursIn ("Color Application (" ++ videoEffectiveDuration params ++ " format):")
      (buildVideoStructuredPrompt catalog params) ∧
    occursIn ("Apply these colors consistently throughout the entire " ++
      videoEffectiveDuration params ++ " video sequence")
      (buildVideoStructuredPrompt catalog params) ∧
    (params.referenceImages.length > 0 →
      videoEffectiveDuration params = "8s" ∧
      occursIn refImageNote (buildVideoStructuredPrompt catalog params) ∧
      occursIn "Duration: 8 seconds (reference image constraint with Google Veo 3.1)"
        (buildVideoStructuredPrompt catalog params)) ∧
    (params.referenceImages.length = 0 →
      occursIn ("Duration: " ++ params.duration) (buildVideoStructuredPrompt catalog params)) := by
  refine ⟨?_, ?_, ?_, ?_⟩
  · exact occursIn_joinSep _ (colorSection_mem catalog params)
      (colorSection_occ_application _ _ _)
  · exact occursIn_joinSep _ (colorSection_mem catalog params)
      (colorSection_occ_apply _ _ _)
  · intro hp
    refine ⟨by simp [videoEffectiveDuration, hp], ?_, ?_⟩
    · refine occursIn_joinSep _ (l := buildVideoStructuredPromptSections catalog params)
        ?_ (refSection_occ_note params.referenceImages)
      simp [buildVideoStructuredPromptSections, hp]
    · have h := occursIn_joinSep sectionSep (specSection_mem catalog params)
        (specSection_occ_durationNote params.aspectRatio
          (decide (params.referenceImages.length > 0)) (videoEffectiveDuration params)
          (renderParseInt (jsReplaceFirst (videoEffectiveDuration params) "s" "")))
      rw [show decide (params.referenceImages.length > 0) = true by simp [hp]] at h
      simpa [durationNote, buildVideoStructuredPrompt] using h
  · intro h0
    have h := occursIn_joinSep sectionSep (specSection_mem catalog params)
      (specSection_occ_durationNote params.aspectRatio
        (decide (params.referenceImages.length > 0)) (videoEffectiveDuration params)
        (renderParseInt (jsReplaceFirst (videoEffectiveDuration params) "s" "")))
    rw [show decide (params.referenceImages.length > 0) = false by simp [h0]] at h
    rw [show videoEffectiveDuration params = params.duration by
      simp [videoEffectiveDuration, h0]] at h
    simpa [durationNote, buildVideoStructuredPrompt] using h

/-- Under `TrendOk`, the trend step succeeds. -/
def TrendOk (cfg : GenerationConfig) (or : RouteOracles) : Prop :=
  trendCond cfg = true → ∃ s, or.trendExpansion = .ok s

/-- Under `VideoTrendOk`, the video trend step succeeds. -/
def VideoTrendOk (cfg : GenerationConfig) (or : RouteOracles) : Prop :=
  videoTrendCond cfg = true → ∃ s, or.videoTrendExpansion = .ok s

theorem trendStep_ok (cfg : GenerationConfig) (or : RouteOracles) (h : TrendOk cfg or) :
    ∃ t, trendStep cfg or = .ok t := by
  by_cases htc : trendCond cfg = true
  · obtain ⟨s, hs⟩ := h htc
    exact ⟨some s, by simp [trendStep, htc, hs, Except.map]⟩
  · exact ⟨none, by simp [trendStep, htc]⟩

theorem videoTrendStep_ok (cfg : GenerationConfig) (or : RouteOracles) (h : VideoTrendOk cfg or) :
    ∃ t, videoTrendStep cfg or = .ok t := by
  by_cases htc : videoTrendCond cfg = true
  · obtain ⟨s, hs⟩ := h htc
    exact ⟨some s, by simp [videoTrendStep, htc, hs, Except.map]⟩
  · exact ⟨none, by simp [videoTrendStep, htc]⟩

/-- The route's effective duration for a video request:
`hasReferenceImages ? "8s" : (config.videoLength || "6s")`. -/
def routeEffectiveDuration (cfg : GenerationConfig) (anchors : List Buffer) : String :=
  if anchors.length > 0 then "8s" else jsOrOpt cfg.videoLength "6s"

/-- The video call the route makes, when the pre-dispatch steps succeed. -/
theorem route_videoCall (imageCatalog videoCatalog : PresetCatalog) (cfg : GenerationConfig)
    (form : FormInput) (or : RouteOracles)
    (hc : form.configPresent = true) (hm : ¬cfg.protocolType = "IMAGE")
    (t vt : Option String) (ht : trendStep cfg or = .ok t)
    (hvt : videoTrendStep cfg or = .ok vt) :
    (route imageCatalog videoCatalog cfg form or).videoCall = some
      { prompt := buildVideoStructuredPrompt videoCatalog
          (videoPromptParamsOf cfg form.anchorImages vt)
        anchorImages := if form.anchorImages.length > 0 then some form.anchorImages else none
        duration := some (routeEffectiveDuration cfg form.anchorImages)
        aspectRatio := some (jsOrOpt cfg.aspectRatio "9:16") } := by
  rw [route]
  rw [if_neg (by simp [hc])]
  rw [ht]
  simp only []
  rw [if_neg hm]
  rw [hvt]
  rcases h : or.videoGen with m | r <;>
    simp [routeEffectiveDuration, h]

/-- C1: for every video request whose pre-dispatch steps succeed, the
effective duration is "8s" whenever at least one anchor image is supplied and
otherwise the requested duration (defaulting to "6s"); this value appears in
the rendered video prompt (the reference-images notice and the fixed
8-second Duration line when anchors are present, the `Duration:` line
otherwise, and the color-palette guidance in both cases) and is the duration
parameter passed to the external video call. -/
theorem C1_duration_lock (imageCatalog videoCatalog : PresetCatalog) (cfg : GenerationConfig)
    (form : FormInput) (or : RouteOracles)
    (hc : form.configPresent = true) (hm : ¬cfg.protocolType = "IMAGE")
    (ht : TrendOk cfg or) (hvt : VideoTrendOk cfg or) :
    ∃ vp, (route imageCatalog videoCatalog cfg form or).videoCall = some vp ∧
      vp.duration = some (routeEffectiveDuration cfg form.anchorImages) ∧
      (form.anchorImages ≠ [] → routeEffectiveDuration cfg form.anchorImages = "8s") ∧
      (form.anchorImages = [] →
        routeEffectiveDuration cfg form.anchorImages = jsOrOpt cfg.videoLength "6s") ∧
      occursIn ("Color Application (" ++ routeEffectiveDuration cfg form.anchorImages ++
        " format):") vp.prompt ∧
      occursIn ("Apply these colors consistently throughout the entire " ++
        routeEffectiveDuration cfg form.anchorImages ++ " video sequence") vp.prompt ∧
      (form.anchorImages ≠ [] →
        occursIn refImageNote vp.prompt ∧
        occursIn "Duration: 8 seconds (reference image constraint with Google Veo 3.1)"
          vp.prompt) ∧
      (form.anchorImages = [] →
        occursIn ("Duration: " ++ jsOrOpt cfg.videoLength "6s") vp.prompt) := by
  obtain ⟨t, hts⟩ := trendStep_ok cfg or ht
  obtain ⟨vt, hvts⟩ := videoTrendStep_ok cfg or hvt
  have hcall := route_videoCall imageCatalog videoCatalog cfg form or hc hm t vt hts hvts
  set P := videoPromptParamsOf cfg form.anchorImages vt with hP
  have hlen : P.referenceImages.length = form.anchorImages.length := by
    simp [hP, videoPromptParamsOf, buildRefImages]
  have heff : videoEffectiveDuration P = routeEffectiveDuration cfg form.anchorImages := by
    rw [videoEffectiveDuration, hlen, routeEffectiveDuration]
    by_cases hgt : form.anchorImages.length > 0
    · simp [hgt]
    · simp [hgt, hP, videoPromptParamsOf]
  have hocc := video_prompt_occurrences videoCatalog P
  refine ⟨_, hcall, rfl, ?_, ?_, ?_, ?_, ?_, ?_⟩
  · intro hne
    have : form.anchorImages.length > 0 := List.length_pos.mpr hne
    simp [routeEffectiveDuration, this]
  · intro h0
    simp [routeEffectiveDuration, h0]
  · rw [← heff]
    exact hocc.1
  · rw [← heff]
    exact hocc.2.1
  · intro hne
    have hgt : P.referenceImages.length > 0 := by
      rw [hlen]
      exact List.length_pos.mpr hne
    exact ⟨(hocc.2.2.1 hgt).2.1, (hocc.2.2.1 hgt).2.2⟩
  · intro h0
    have h0' : P.referenceImages.length = 0 := by
      rw [hlen, h0]
      rfl
    have hdur : P.duration = jsOrOpt cfg.videoLength "6s" := by
      simp [hP, videoPromptParamsOf, h0]
    have := hocc.2.2.2 h0'
    rwa [hdur] at this

/-- Witness for C1: a concrete video request with one anchor image and a
requested duration of "4s" locks to "8s". -/
theorem C1_witness :
    ∃ vp, (route (fun _ => none) (fun _ => none)
      { protocolType := "VIDEO", videoLength := some "4s" }
      { anchorImages := [[7]] }
      { trendExpansion := .ok "t", videoTrendExpansion := .ok "vt", variationAi := .ok none,
        imageGen := fun _ => .ok ⟨"image", "f", "n", "m"⟩,
        videoGen := .ok ⟨"video", "f", "n", "m"⟩ }).videoCall = some vp ∧
      vp.duration = some "8s" ∧ occursIn refImageNote vp.prompt := by
  obtain ⟨vp, hcall, hdur, h8, _, _, _, hnote, _⟩ :=
    C1_duration_lock (fun _ => none) (fun _ => none)
      { protocolType := "VIDEO", videoLength := some "4s" }
      { anchorImages := [[7]] }
      { trendExpansion := .ok "t", videoTrendExpansion := .ok "vt", variationAi := .ok none,
        imageGen := fun _ => .ok ⟨"image", "f", "n", "m"⟩,
        videoGen := .ok ⟨"video", "f", "n", "m"⟩ }
      rfl (by decide) (fun _ => ⟨"t", rfl⟩) (fun _ => ⟨"vt", rfl⟩)
  refine ⟨vp, hcall, ?_, (hnote (by decide)).1⟩
  rw [hdur, h8 (by decide)]

/-! ## C4: trend-expansion failure aborts the request -/

/-- Is an event terminal (result or error, not a status)? -/
def isTerminalEv : SseEvent → Bool
  | .status _ _ => false
  | _ => true

/-- C4 counterexample: an image request with an AI trend selection whose
expansion call throws emits statuses 5, 10, 12 and then a request-level
error, makes no generation call, and proceeds to no prompt dispatch — even
though the image oracle would have succeeded. -/
theorem C4_counterexample :
    (route (fun _ => none) (fun _ => none)
      { protocolType := "IMAGE", creativeTrendType := some "ai",
        aiTrendDescription := some "neon vaporwave" }
      {}
      { trendExpansion := .error (), videoTrendExpansion := .ok "",
        variationAi := .ok none,
        imageGen := fun _ => .ok ⟨"image", "f", "n", "m"⟩,
        videoGen := .ok ⟨"video", "f", "n", "m"⟩ }).imageCalls = [] ∧
    (route (fun _ => none) (fun _ => none)
      { protocolType := "IMAGE", creativeTrendType := some "ai",
        aiTrendDescription := some "neon vaporwave" }
      {}
      { trendExpansion := .error (), videoTrendExpansion := .ok "",
        variationAi := .ok none,
        imageGen := fun _ => .ok ⟨"image", "f", "n", "m"⟩,
        videoGen := .ok ⟨"video", "f", "n", "m"⟩ }).events =
      [stEv "Initializing AI generation..." 5,
       stEv "Processing 1 uploaded file(s)..." 10,
       stEv "AI generating creative trend from your description..." 12,
       SseEvent.errorEv "Failed to generate creative trend from description"] := by
  constructor <;> rfl

/-- C4 amended: for every request with the AI trend selection whose
expansion call throws, the throw reaches only the top-level handler: the
request emits a request-level error event (the last event of the stream, and
its only terminal event) and makes no generation call at all — it does not
proceed to prompt building or dispatch. -/
theorem C4_trend_failure_aborts (imageCatalog videoCatalog : PresetCatalog)
    (cfg : GenerationConfig) (form : FormInput) (or : RouteOracles)
    (hc : form.configPresent = true)
    (htc : trendCond cfg = true) (hthrow : or.trendExpansion = .error ()) :
    (route imageCatalog videoCatalog cfg form or).imageCalls = [] ∧
    (route imageCatalog videoCatalog cfg form or).videoCall = none ∧
    (route imageCatalog videoCatalog cfg form or).events.getLast? =
      some (.errorEv "Failed to generate creative trend from description") ∧
    (route imageCatalog videoCatalog cfg form or).events.countP isTerminalEv = 1 := by
  have hstep : trendStep cfg or = .error () := by
    simp [trendStep, htc, hthrow, Except.map]
  rw [route, if_neg (by simp [hc]), hstep]
  simp [htc, stEv, isTerminalEv, List.countP_cons, routePre1, routeTrendEvents]

/-- Witness for C4's amended theorem at a concrete input. -/
theorem C4_witness :
    (route (fun _ => none) (fun _ => none)
      { protocolType := "VIDEO", creativeTrendType := some "ai",
        aiTrendDescription := some "d" }
      {}
      { trendExpansion := .error (), videoTrendExpansion := .ok "",
        variationAi := .ok none,
        imageGen := fun _ => .ok ⟨"image", "f", "n", "m"⟩,
        videoGen := .ok ⟨"video", "f", "n", "m"⟩ }).imageCalls = [] ∧
    (route (fun _ => none) (fun _ => none)
      { protocolType := "VIDEO", creativeTrendType := some "ai",
        aiTrendDescription := some "d" }
      {}
      { trendExpansion := .error (), videoTrendExpansion := .ok "",
        variationAi := .ok none,
        imageGen := fun _ => .ok ⟨"image", "f", "n", "m"⟩,
        videoGen := .ok ⟨"video", "f", "n", "m"⟩ }).videoCall = none := by
  have h := C4_trend_failure_aborts (fun _ => none) (fun _ => none)
    { protocolType := "VIDEO", creativeTrendType := some "ai", aiTrendDescription := some "d" }
    {}
    { trendExpansion := .error (), videoTrendExpansion := .ok "",
      variationAi := .ok none,
      imageGen := fun _ => .ok ⟨"image", "f", "n", "m"⟩,
      videoGen := .ok ⟨"video", "f", "n", "m"⟩ }
    rfl rfl rfl
  exact ⟨h.1, h.2.1⟩

/-! ## Dispatch-loop lemmas for C3 and C9 -/

theorem imageLoopAux_statuses_only (gen : Nat → Except String GenerationResult)
    (promptOf : Nat → String) (refs : Option (List Buffer)) (ar : String) (n : Nat) :
    ∀ (rem i : Nat) (e : SseEvent),
      e ∈ (imageLoopAux gen promptOf refs ar n i rem).1 → ∃ m p, e = SseEvent.status m p := by
  intro rem
  induction rem with
  | zero =>
    intro i e he
    rw [imageLoopAux] at he
    simp at he
  | succ r ih =>
    intro i e he
    rw [imageLoopAux] at he
    rcases hg : gen i with m | res <;> rw [hg] at he <;> simp at he
    · subst he
      exact ⟨_, _, rfl⟩
    · rcases he with rfl | hmem
      · exact ⟨_, _, rfl⟩
      · exact ih (i + 1) e hmem

theorem imageLoopAux_no_terminal (gen : Nat → Except String GenerationResult)
    (promptOf : Nat → String) (refs : Option (List Buffer)) (ar : String) (n : Nat)
    (rem i : Nat) : (imageLoopAux gen promptOf refs ar n i rem).1.countP isTerminalEv = 0 := by
  rw [List.countP_eq_zero]
  intro e he
  obtain ⟨m, p, rfl⟩ := imageLoopAux_statuses_only gen promptOf refs ar n rem i e he
  simp [isTerminalEv]

theorem imageLoopAux_ok (gen : Nat → Except String GenerationResult)
    (promptOf : Nat → String) (refs : Option (List Buffer)) (ar : String) (n : Nat) :
    ∀ (rem i : Nat), (∀ k, i ≤ k → k < i + rem → ∃ r, gen k = .ok r) →
      ∃ rs, (imageLoopAux gen promptOf refs ar n i rem).2.2 = .ok rs ∧
        rs.length = rem ∧ (imageLoopAux gen promptOf refs ar n i rem).2.1.length = rem := by
  intro rem
  induction rem with
  | zero =>
    intro i _
    exact ⟨[], by rw [imageLoopAux], rfl, by simp [imageLoopAux]⟩
  | succ r ih =>
    intro i h
    obtain ⟨res, hres⟩ := h i (le_refl i) (by omega)
    obtain ⟨rs, h1, h2, h3⟩ := ih (i + 1) (fun k hk1 hk2 => h k (by omega) (by omega))
    rw [imageLoopAux, hres]
    refine ⟨res :: rs, ?_, by simp [h2], ?_⟩
    · simp only [h1]
    · simp [h3]

theorem imageLoopAux_fail (gen : Nat → Except String GenerationResult)
    (promptOf : Nat → String) (refs : Option (List Buffer)) (ar : String) (n : Nat) :
    ∀ (rem i j : Nat) (m : String), i ≤ j → j < i + rem → gen j = .error m →
      (∀ k, i ≤ k → k < j → ∃ r, gen k = .ok r) →
      (imageLoopAux gen promptOf refs ar n i rem).2.2 = .error m ∧
      (imageLoopAux gen promptOf refs ar n i rem).2.1.length = j + 1 - i := by
  intro rem
  induction rem with
  | zero => intro i j m h1 h2 _ _; omega
  | succ r ih =>
    intro i j m hij hjr hfail hok
    by_cases hji : j = i
    · subst hji
      rw [imageLoopAux, hfail]
      exact ⟨rfl, by simp⟩
    · have hlt : i < j := lt_of_le_of_ne hij (Ne.symm hji)
      obtain ⟨res, hres⟩ := hok i (le_refl _) hlt
      rw [imageLoopAux, hres]
      obtain ⟨h1, h2⟩ := ih (i + 1) j m (by omega) (by omega) hfail
        (fun k hk1 hk2 => hok k (by omega) hk2)
      refine ⟨by simp only [h1], ?_⟩
      simp only [List.length_cons, h2]
      omega

theorem imageLoopAux_call_status (gen : Nat → Except String GenerationResult)
    (promptOf : Nat → String) (refs : Option (List Buffer)) (ar : String) (n : Nat) :
    ∀ (rem i j : Nat), j < (imageLoopAux gen promptOf refs ar n i rem).2.1.length →
      stEv ("Generating image " ++ toString (i + j + 1) ++ " of " ++ toString n ++ "...")
        (25 + (i + j) * 60 / n) ∈ (imageLoopAux gen promptOf refs ar n i rem).1 := by
  intro rem
  induction rem with
  | zero =>
    intro i j hj
    rw [imageLoopAux] at hj
    simp at hj
  | succ r ih =>
    intro i j hj
    rw [imageLoopAux] at hj ⊢
    rcases hg : gen i with m | res
    · rw [hg] at hj
      simp at hj
      subst hj
      simp
    · rcases j with _ | j'
      · simp
      · rw [hg] at hj
        have hj' : j' < (imageLoopAux gen promptOf refs ar n (i + 1) r).2.1.length := by
          simp at hj
          omega
        have hmem := ih (i + 1) j' hj'
        have heq1 : i + 1 + j' = i + (j' + 1) := by omega
        rw [heq1] at hmem
        exact List.mem_cons_of_mem _ hmem

/-! ## Bounded non-decreasing progress sequences -/

/-- The progress values of the status events of a stream, in order. -/
def statusProgresses (evs : List SseEvent) : List Nat :=
  evs.filterMap (fun e => match e with | .status _ p => some p | _ => none)

/-- A non-decreasing run of values within `[lo, hi]`. -/
def BoundedChain (lo hi : Nat) (l : List Nat) : Prop :=
  List.Chain' (· ≤ ·) l ∧ ∀ x ∈ l, lo ≤ x ∧ x ≤ hi

theorem BoundedChain.nil (lo hi : Nat) : BoundedChain lo hi [] :=
  ⟨List.chain'_nil, by simp⟩

theorem BoundedChain.mem_le {lo hi : Nat} {l : List Nat} (h : BoundedChain lo hi l)
    {x : Nat} (hx : x ∈ l.getLast?) : x ≤ hi := by
  obtain ⟨hne, rfl⟩ := List.mem_getLast?_eq_getLast hx
  exact (h.2 _ (List.getLast_mem hne)).2

theorem BoundedChain.append' {lo1 hi1 lo2 hi2 : Nat} {l1 l2 : List Nat}
    (h1 : BoundedChain lo1 hi1 l1) (h2 : BoundedChain lo2 hi2 l2)
    (hmid : hi1 ≤ lo2) (hlo : lo1 ≤ lo2) (hhi : hi1 ≤ hi2) :
    BoundedChain lo1 hi2 (l1 ++ l2) := by
  constructor
  · refine h1.1.append h2.1 ?_
    intro x hx y hy
    have hx' := h1.mem_le hx
    have hy' := (h2.2 y (List.mem_of_mem_head? hy)).1
    omega
  · intro x hx
    rcases List.mem_append.mp hx with hx | hx
    · have := h1.2 x hx
      omega
    · have := h2.2 x hx
      omega

theorem BoundedChain.cons' {lo hi lo2 x : Nat} {l : List Nat} (h : BoundedChain lo2 hi l)
    (hx1 : lo ≤ x) (hx2 : x ≤ hi) (hxlo : x ≤ lo2) : BoundedChain lo hi (x :: l) := by
  constructor
  · rw [List.chain'_cons']
    refine ⟨fun y hy => ?_, h.1⟩
    have := (h.2 y (List.mem_of_mem_head? hy)).1
    omega
  · intro z hz
    rcases List.mem_cons.mp hz with rfl | hz
    · exact ⟨hx1, hx2⟩
    · have := h.2 z hz
      omega

theorem prog_le_84 {i n : Nat} (hn : 1 ≤ n) (hi : i < n) : 25 + i * 60 / n ≤ 84 := by
  have h60 : i * 60 / n < 60 := by
    rw [Nat.div_lt_iff_lt_mul (by omega)]
    have : i * 60 < n * 60 := by
      have := Nat.mul_le_mul_right 60 (show i + 1 ≤ n by omega)
      omega
    omega
  omega

theorem prog_mono {i n : Nat} : 25 + i * 60 / n ≤ 25 + (i + 1) * 60 / n := by
  have h : i * 60 ≤ (i + 1) * 60 := by omega
  have := Nat.div_le_div_right (c := n) h
  omega

/-- The dispatch-loop statuses form a non-decreasing run within `[25+i*60/n, 84]`. -/
theorem imageLoopAux_bc (gen : Nat → Except String GenerationResult)
    (promptOf : Nat → String) (refs : Option (List Buffer)) (ar : String) (n : Nat)
    (hn : 1 ≤ n) :
    ∀ (rem i : Nat), i + rem ≤ n →
      BoundedChain (25 + i * 60 / n) 84
        (statusProgresses (imageLoopAux gen promptOf refs ar n i rem).1) := by
  intro rem
  induction rem with
  | zero =>
    intro i _
    rw [imageLoopAux]
    exact BoundedChain.nil _ _
  | succ r ih =>
    intro i hle
    have hin : i < n := by omega
    rw [imageLoopAux]
    rcases hg : gen i with m | res
    · simp only [statusProgresses, stEv, List.filterMap]
      exact ⟨List.chain'_singleton _, by
        intro x hx
        simp at hx
        subst hx
        exact ⟨le_refl _, prog_le_84 hn hin⟩⟩
    · have hrec := ih (i + 1) (by omega)
      simp only [statusProgresses, stEv, List.filterMap_cons] at hrec ⊢
      exact hrec.cons' (le_refl _) (prog_le_84 hn hin) prog_mono

/-! ## C3: exactly one terminal event; failure aborts the loop -/

/-- The image branch always emits exactly one terminal event. -/
theorem imageBranch_one_terminal (cfg : GenerationConfig) (or : RouteOracles)
    (up : List Buffer) (sp : String) (tr : Option String) :
    (imageBranch cfg or up sp tr).1.countP isTerminalEv = 1 := by
  rw [imageBranch]
  split <;>
    simp [List.countP_append, branchSpecEvents, imageBranchLoop, imageLoopAux_no_terminal,
      List.countP_cons, isTerminalEv, stEv, apply_ite (List.countP isTerminalEv)]

/-- The image branch never emits a result event through its status lists. -/
theorem branchSpecEvents_statuses (cfg : GenerationConfig) :
    ∀ e ∈ branchSpecEvents cfg, ∃ m p, e = SseEvent.status m p := by
  intro e he
  rw [branchSpecEvents] at he
  split at he
  · simp at he
    subst he
    exact ⟨_, _, rfl⟩
  · simp at he

/-- On a first failure at index `j`, the image branch makes `j + 1` calls,
emits that failure's error event, and emits no result event. -/
theorem imageBranch_fail (cfg : GenerationConfig) (or : RouteOracles)
    (up : List Buffer) (sp : String) (tr : Option String) (j : Nat) (m : String)
    (hj : j < jsOrNat cfg.variantCount 1)
    (hfail : or.imageGen j = .error m)
    (hok : ∀ k, k < j → ∃ r, or.imageGen k = .ok r) :
    (imageBranch cfg or up sp tr).2.length = j + 1 ∧
    SseEvent.errorEv m ∈ (imageBranch cfg or up sp tr).1 ∧
    ∀ rs, SseEvent.imageResult rs ∉ (imageBranch cfg or up sp tr).1 := by
  have hloop := imageLoopAux_fail or.imageGen
    (variantPromptOf sp (branchVariationSpecs cfg or tr))
    (if up.length > 0 then some up else none) (jsOrOpt cfg.aspectRatio "9:16")
    (jsOrNat cfg.variantCount 1) (jsOrNat cfg.variantCount 1) 0 j m (by omega) (by omega)
    hfail (fun k _ hk2 => hok k hk2)
  have hL2 : (imageBranchLoop cfg or up sp tr).2.2 = .error m := by
    rw [imageBranchLoop]
    exact hloop.1
  have hL1 : (imageBranchLoop cfg or up sp tr).2.1.length = j + 1 := by
    rw [imageBranchLoop, hloop.2]
    omega
  rw [imageBranch, hL2]
  refine ⟨hL1, by simp, ?_⟩
  intro rs hmem
  simp only [List.mem_append] at hmem
  rcases hmem with (hmem | hmem) | hmem
  · obtain ⟨_, _, h⟩ := branchSpecEvents_statuses cfg _ hmem
    cases h
  · rw [imageBranchLoop] at hmem
    obtain ⟨_, _, h⟩ := imageLoopAux_statuses_only _ _ _ _ _ _ _ _ hmem
    cases h
  · simp at hmem

/-- On full success, the image branch makes `variantCount` calls, emits a
result event carrying all `variantCount` results, and emits no error
event. -/
theorem imageBranch_ok (cfg : GenerationConfig) (or : RouteOracles)
    (up : List Buffer) (sp : String) (tr : Option String)
    (hok : ∀ k, k < jsOrNat cfg.variantCount 1 → ∃ r, or.imageGen k = .ok r) :
    (imageBranch cfg or up sp tr).2.length = jsOrNat cfg.variantCount 1 ∧
    (∃ rs, SseEvent.imageResult rs ∈ (imageBranch cfg or up sp tr).1 ∧
      rs.length = jsOrNat cfg.variantCount 1) ∧
    ∀ m, SseEvent.errorEv m ∉ (imageBranch cfg or up sp tr).1 := by
  obtain ⟨rs, h1, h2, h3⟩ := imageLoopAux_ok or.imageGen
    (variantPromptOf sp (branchVariationSpecs cfg or tr))
    (if up.length > 0 then some up else none) (jsOrOpt cfg.aspectRatio "9:16")
    (jsOrNat cfg.variantCount 1) (jsOrNat cfg.variantCount 1) 0
    (fun k hk1 hk2 => hok k (by omega))
  have hL2 : (imageBranchLoop cfg or up sp tr).2.2 = .ok rs := by
    rw [imageBranchLoop]
    exact h1
  have hL1 : (imageBranchLoop cfg or up sp tr).2.1.length = jsOrNat cfg.variantCount 1 := by
    rw [imageBranchLoop]
    exact h3
  rw [imageBranch, hL2]
  refine ⟨hL1, ⟨rs, by simp, h2⟩, ?_⟩
  intro m hmem
  simp only [List.mem_append] at hmem
  rcases hmem with (hmem | hmem) | hmem
  · obtain ⟨_, _, h⟩ := branchSpecEvents_statuses cfg _ hmem
    cases h
  · rw [imageBranchLoop] at hmem
    obtain ⟨_, _, h⟩ := imageLoopAux_statuses_only _ _ _ _ _ _ _ _ hmem
    cases h
  · simp [stEv] at hmem

/-- The route's reduction on the image path when the trend step succeeds. -/
theorem route_image_reduce (imageCatalog videoCatalog : PresetCatalog)
    (cfg : GenerationConfig) (form : FormInput) (or : RouteOracles)
    (hc : form.configPresent = true) (hm : cfg.protocolType = "IMAGE")
    (t : Option String) (ht : trendStep cfg or = .ok t) :
    route imageCatalog videoCatalog cfg form or =
      { events := routePre1 form ++ (routeTrendEvents cfg ++
          [stEv "Applying structured prompt template..." 15]) ++
          [stEv "Connecting to Nano Banana Pro (gemini-3-pro-image)..." 20] ++
          (imageBranch cfg or (form.productImages ++ form.lookAndFeelImages)
            (buildStructuredPrompt imageCatalog
              (structuredPromptParamsOf cfg t form.productImages.length
                form.lookAndFeelImages.length)) t).1 ++
          [stEv "Complete!" 100],
        imageCalls := (imageBranch cfg or (form.productImages ++ form.lookAndFeelImages)
          (buildStructuredPrompt imageCatalog
            (structuredPromptParamsOf cfg t form.productImages.length
              form.lookAndFeelImages.length)) t).2,
        videoCall := none } := by
  rw [route, if_neg (by simp [hc]), ht]
  simp only []
  rw [if_pos hm]

/-- C3: for every well-formed image request, the stream carries exactly one
terminal event (a result or an error, never both, never neither) before it is
closed; when the external image call first fails at variant `j`, exactly
`j + 1` generation calls were made (no further variants are dispatched) and
the terminal event is that failure's error event; on full success the
terminal event is a result event carrying all variants. -/
theorem C3_single_terminal_event (imageCatalog videoCatalog : PresetCatalog)
    (cfg : GenerationConfig) (form : FormInput) (or : RouteOracles)
    (hc : form.configPresent = true) (hm : cfg.protocolType = "IMAGE") :
    (route imageCatalog videoCatalog cfg form or).events.countP isTerminalEv = 1 ∧
    (∀ j m, TrendOk cfg or → j < jsOrNat cfg.variantCount 1 → or.imageGen j = .error m →
      (∀ k, k < j → ∃ r, or.imageGen k = .ok r) →
      (route imageCatalog videoCatalog cfg form or).imageCalls.length = j + 1 ∧
      SseEvent.errorEv m ∈ (route imageCatalog videoCatalog cfg form or).events ∧
      ∀ rs, SseEvent.imageResult rs ∉ (route imageCatalog videoCatalog cfg form or).events) ∧
    (TrendOk cfg or → (∀ k, k < jsOrNat cfg.variantCount 1 → ∃ r, or.imageGen k = .ok r) →
      (route imageCatalog videoCatalog cfg form or).imageCalls.length =
        jsOrNat cfg.variantCount 1 ∧
      (∃ rs, SseEvent.imageResult rs ∈ (route imageCatalog videoCatalog cfg form or).events ∧
        rs.length = jsOrNat cfg.variantCount 1) ∧
      ∀ m, SseEvent.errorEv m ∉ (route imageCatalog videoCatalog cfg form or).events) := by
  refine ⟨?_, ?_, ?_⟩
  · rcases hts : trendStep cfg or with e | t
    · cases e
      rw [route, if_neg (by simp [hc]), hts]
      have htc : trendCond cfg = true := by
        by_contra htcn
        rw [trendStep, if_neg (by simp [htcn])] at hts
        cases hts
      simp [htc, stEv, isTerminalEv, List.countP_cons, routePre1, routeTrendEvents,
        List.countP_append]
    · rw [route_image_reduce imageCatalog videoCatalog cfg form or hc hm t hts]
      simp [List.countP_append, imageBranch_one_terminal, routePre1, routeTrendEvents,
        List.countP_cons, isTerminalEv, stEv, apply_ite (List.countP isTerminalEv)]
  · intro j m htrend hj hfail hok
    obtain ⟨t, hts⟩ := trendStep_ok cfg or htrend
    rw [route_image_reduce imageCatalog videoCatalog cfg form or hc hm t hts]
    obtain ⟨hb1, hb2, hb3⟩ := imageBranch_fail cfg or
      (form.productImages ++ form.lookAndFeelImages)
      (buildStructuredPrompt imageCatalog (structuredPromptParamsOf cfg t
        form.productImages.length form.lookAndFeelImages.length)) t j m hj hfail hok
    refine ⟨hb1, by simp [hb2], ?_⟩
    intro rs hmem
    simp only [List.mem_append, List.mem_cons, List.mem_singleton] at hmem
    rcases hmem with ((((hmem | hmem) | hmem) | hmem) | hmem)
    · simp [routePre1, stEv] at hmem
    · rcases hmem with hmem | hmem
      · simp [routeTrendEvents, stEv, apply_ite] at hmem
      · simp [stEv] at hmem
    · simp [stEv] at hmem
    · exact hb3 rs hmem
    · rcases hmem with hmem | hmem
      · cases hmem
      · simp at hmem
  · intro htrend hok
    obtain ⟨t, hts⟩ := trendStep_ok cfg or htrend
    rw [route_image_reduce imageCatalog videoCatalog cfg form or hc hm t hts]
    obtain ⟨hb1, ⟨rs, hrs1, hrs2⟩, hb3⟩ := imageBranch_ok cfg or
      (form.productImages ++ form.lookAndFeelImages)
      (buildStructuredPrompt imageCatalog (structuredPromptParamsOf cfg t
        form.productImages.length form.lookAndFeelImages.length)) t hok
    refine ⟨hb1, ⟨rs, by simp [hrs1], hrs2⟩, ?_⟩
    intro m hmem
    simp only [List.mem_append, List.mem_cons, List.mem_singleton] at hmem
    rcases hmem with ((((hmem | hmem) | hmem) | hmem) | hmem)
    · simp [routePre1, stEv] at hmem
    · rcases hmem with hmem | hmem
      · simp [routeTrendEvents, stEv, apply_ite] at hmem
      · simp [stEv] at hmem
    · simp [stEv] at hmem
    · exact hb3 m hmem
    · rcases hmem with hmem | hmem
      · cases hmem
      · simp at hmem

/-- Witness for C3: a 3-variant request whose second call fails makes exactly
2 calls and ends in one terminal error event. -/
theorem C3_witness :
    (route (fun _ => none) (fun _ => none)
      { protocolType := "IMAGE", variantCount := some 3 }
      {}
      { trendExpansion := .ok "", videoTrendExpansion := .ok "", variationAi := .ok none,
        imageGen := fun i => if i = 0 then .ok ⟨"image", "f", "n", "m"⟩ else .error "boom",
        videoGen := .ok ⟨"video", "f", "n", "m"⟩ }).events.countP isTerminalEv = 1 ∧
    (route (fun _ => none) (fun _ => none)
      { protocolType := "IMAGE", variantCount := some 3 }
      {}
      { trendExpansion := .ok "", videoTrendExpansion := .ok "", variationAi := .ok none,
        imageGen := fun i => if i = 0 then .ok ⟨"image", "f", "n", "m"⟩ else .error "boom",
        videoGen := .ok ⟨"video", "f", "n", "m"⟩ }).imageCalls.length = 2 := by
  have h := C3_single_terminal_event (fun _ => none) (fun _ => none)
    { protocolType := "IMAGE", variantCount := some 3 }
    {}
    { trendExpansion := .ok "", videoTrendExpansion := .ok "", variationAi := .ok none,
      imageGen := fun i => if i = 0 then .ok ⟨"image", "f", "n", "m"⟩ else .error "boom",
      videoGen := .ok ⟨"video", "f", "n", "m"⟩ }
    rfl rfl
  refine ⟨h.1, ?_⟩
  have h2 := h.2.1 1 "boom" (fun _ => ⟨"", rfl⟩) (by decide) rfl ?_
  · exact h2.1
  · intro k hk
    have hk0 : k = 0 := by omega
    subst hk0
    exact ⟨⟨"image", "f", "n", "m"⟩, rfl⟩

/-! ## C9: progress monotonicity -/

theorem jsOrNat_pos (v : Option Nat) : 1 ≤ jsOrNat v 1 := by
  rcases v with _ | n
  · simp [jsOrNat]
  · rw [jsOrNat]
    split <;> omega

theorem statusProgresses_append (a b : List SseEvent) :
    statusProgresses (a ++ b) = statusProgresses a ++ statusProgresses b := by
  simp [statusProgresses]

theorem statusProgresses_nil : statusProgresses [] = [] := rfl

theorem sp_pre1 (form : FormInput) : statusProgresses (routePre1 form) = [5, 10] := by
  simp [routePre1, statusProgresses, stEv]

theorem sp_trend (cfg : GenerationConfig) :
    statusProgresses (routeTrendEvents cfg) = if trendCond cfg then [12] else [] := by
  rw [routeTrendEvents]
  split <;> simp [statusProgresses, stEv]

theorem sp_spec (cfg : GenerationConfig) :
    statusProgresses (branchSpecEvents cfg) =
      if varSpecsCond cfg (jsOrNat cfg.variantCount 1) then [22] else [] := by
  rw [branchSpecEvents]
  split <;> simp [statusProgresses, stEv]

theorem BoundedChain.widen {lo hi lo' hi' : Nat} {l : List Nat} (h : BoundedChain lo hi l)
    (h1 : lo' ≤ lo) (h2 : hi ≤ hi') : BoundedChain lo' hi' l := by
  refine ⟨h.1, fun x hx => ?_⟩
  have := h.2 x hx
  omega

theorem bc_singleton {lo hi x : Nat} (h1 : lo ≤ x) (h2 : x ≤ hi) : BoundedChain lo hi [x] :=
  ⟨List.chain'_singleton _, by simpa using ⟨h1, h2⟩⟩

theorem bc_if_singleton (c : Prop) [Decidable c] {lo hi x : Nat} (h1 : lo ≤ x) (h2 : x ≤ hi) :
    BoundedChain lo hi (if c then [x] else []) := by
  split
  · exact bc_singleton h1 h2
  · exact BoundedChain.nil lo hi

/-- The image branch's statuses form a non-decreasing run within `[22, 95]`. -/
theorem imageBranch_bc (cfg : GenerationConfig) (or : RouteOracles)
    (up : List Buffer) (sp : String) (tr : Option String) :
    BoundedChain 22 95 (statusProgresses (imageBranch cfg or up sp tr).1) := by
  have hn : 1 ≤ jsOrNat cfg.variantCount 1 := jsOrNat_pos _
  have hloopbc : BoundedChain 25 84
      (statusProgresses (imageBranchLoop cfg or up sp tr).1) := by
    rw [imageBranchLoop]
    have h := imageLoopAux_bc or.imageGen
      (variantPromptOf sp (branchVariationSpecs cfg or tr))
      (if up.length > 0 then some up else none) (jsOrOpt cfg.aspectRatio "9:16")
      (jsOrNat cfg.variantCount 1) hn (jsOrNat cfg.variantCount 1) 0 (by omega)
    simpa using h
  have hspecbc : BoundedChain 22 22 (statusProgresses (branchSpecEvents cfg)) := by
    rw [sp_spec]
    exact bc_if_singleton _ (le_refl _) (le_refl _)
  rw [imageBranch]
  split
  · rename_i results heq
    rw [statusProgresses_append, statusProgresses_append]
    have htail : BoundedChain 90 95
        (statusProgresses [stEv (toString (jsOrNat cfg.variantCount 1) ++
          " image(s) generated successfully!") 90, stEv "Preparing for preview..." 95,
          SseEvent.imageResult results]) := by
      simp only [statusProgresses, stEv, List.filterMap]
      refine ⟨?_, by intro x hx; simp at hx; rcases hx with rfl | rfl <;> omega⟩
      simp [List.chain'_cons]
    exact ((hspecbc.append' hloopbc (by omega) (by omega) (by omega)).append' htail
      (by omega) (by omega) (by omega)).widen (le_refl _) (le_refl _)
  · rename_i m heq
    rw [statusProgresses_append, statusProgresses_append]
    have htail : BoundedChain 90 95 (statusProgresses [SseEvent.errorEv m]) := by
      simp only [statusProgresses, List.filterMap]
      exact BoundedChain.nil _ _
    exact ((hspecbc.append' hloopbc (by omega) (by omega) (by omega)).append' htail
      (by omega) (by omega) (by omega)).widen (le_refl _) (le_refl _)

theorem sp_single (m : String) (p : Nat) : statusProgresses [stEv m p] = [p] := rfl

theorem sp_pair (m1 : String) (p1 : Nat) (m2 : String) (p2 : Nat) :
    statusProgresses [stEv m1 p1, stEv m2 p2] = [p1, p2] := rfl

theorem sp_error (m : String) : statusProgresses [SseEvent.errorEv m] = [] := rfl

theorem sp_vok (r : GenerationResult) (d : String) (b : Bool) :
    statusProgresses [stEv "Video generated successfully!" 90,
      stEv "Preparing for preview..." 95, SseEvent.videoResult r d b] = [90, 95] := rfl

theorem sp_ite (c : Prop) [Decidable c] (m : String) (p : Nat) :
    statusProgresses (if c then [stEv m p] else []) = if c then [p] else [] := by
  split <;> rfl

/-- The terminal events of the video path, by outcome of the video call. -/
def videoTailEvents (g : Except String GenerationResult) (d : String) (b : Bool) :
    List SseEvent :=
  match g with
  | .ok r => [stEv "Video generated successfully!" 90, stEv "Preparing for preview..." 95,
      SseEvent.videoResult r d b]
  | .error m => [SseEvent.errorEv m]

/-- The route's event reduction on the video path when the video trend step throws. -/
theorem route_vtrend_error_reduce (imageCatalog videoCatalog : PresetCatalog)
    (cfg : GenerationConfig) (form : FormInput) (or : RouteOracles)
    (hc : form.configPresent = true) (hm : ¬cfg.protocolType = "IMAGE")
    (t : Option String) (ht : trendStep cfg or = .ok t)
    (hvt : videoTrendStep cfg or = .error ()) :
    (route imageCatalog videoCatalog cfg form or).events =
      routePre1 form ++ (routeTrendEvents cfg ++
        [stEv "Applying structured prompt template..." 15]) ++
      [stEv "Connecting to Veo 3.1..." 20] ++
      (if videoTrendCond cfg then
        [stEv "AI generating video creative trend from your description..." 25] else []) ++
      [SseEvent.errorEv "Failed to generate video creative trend from description"] := by
  rw [route, if_neg (by simp [hc]), ht]
  simp only []
  rw [if_neg hm, hvt]

/-- The route's event reduction on the video path when both trend steps succeed. -/
theorem route_video_ok_reduce (imageCatalog videoCatalog : PresetCatalog)
    (cfg : GenerationConfig) (form : FormInput) (or : RouteOracles)
    (hc : form.configPresent = true) (hm : ¬cfg.protocolType = "IMAGE")
    (t vt : Option String) (ht : trendStep cfg or = .ok t)
    (hvt : videoTrendStep cfg or = .ok vt) :
    (route imageCatalog videoCatalog cfg form or).events =
      routePre1 form ++ (routeTrendEvents cfg ++
        [stEv "Applying structured prompt template..." 15]) ++
      [stEv "Connecting to Veo 3.1..." 20] ++
      (if videoTrendCond cfg then
        [stEv "AI generating video creative trend from your description..." 25] else []) ++
      [stEv "Building structured video prompt..." 30,
       stEv "Generating video loop (this may take a few minutes)..." 40] ++
      videoTailEvents or.videoGen (routeEffectiveDuration cfg form.anchorImages)
        (decide (form.anchorImages.length > 0)) ++
      [stEv "Complete!" 100] := by
  rw [route, if_neg (by simp [hc]), ht]
  simp only []
  rw [if_neg hm, hvt]
  rcases hg : or.videoGen with m | r <;>
    simp [videoTailEvents, routeEffectiveDuration, hg]

/-- The image branch's call list is the dispatch loop's call list. -/
theorem imageBranch_calls (cfg : GenerationConfig) (or : RouteOracles)
    (up : List Buffer) (sp : String) (tr : Option String) :
    (imageBranch cfg or up sp tr).2 = (imageBranchLoop cfg or up sp tr).2.1 := by
  rw [imageBranch]
  split <;> rfl

/-- Every dispatch-loop event appears in the image branch's event list. -/
theorem imageBranch_mem_loop (cfg : GenerationConfig) (or : RouteOracles)
    (up : List Buffer) (sp : String) (tr : Option String) (e : SseEvent)
    (h : e ∈ (imageBranchLoop cfg or up sp tr).1) : e ∈ (imageBranch cfg or up sp tr).1 := by
  rw [imageBranch]
  split <;> simp [h]

/-- Over every input whatsoever, the progress values the route emits form a
non-decreasing run within `[5, 100]`. -/
theorem route_bc (imageCatalog videoCatalog : PresetCatalog) (cfg : GenerationConfig)
    (form : FormInput) (or : RouteOracles) :
    BoundedChain 5 100 (statusProgresses (route imageCatalog videoCatalog cfg form or).events) := by
  by_cases hc : form.configPresent = true
  · rcases hts : trendStep cfg or with e | t
    · cases e
      rw [route, if_neg (by simp [hc]), hts]
      by_cases htc : trendCond cfg = true <;>
        simp [statusProgresses_append, sp_pre1, sp_trend, sp_error, htc] <;>
        exact ⟨by simp [List.chain'_cons], by intro x hx; simp at hx; omega⟩
    · have h1 : BoundedChain 5 10 [5, 10] :=
        ⟨by simp [List.chain'_cons], by intro x hx; simp at hx; omega⟩
      have h2 : BoundedChain 12 15 ((if trendCond cfg then [12] else []) ++ [15]) := by
        split
        · exact ⟨by simp [List.chain'_cons], by intro x hx; simp at hx; omega⟩
        · exact ⟨by simp, by intro x hx; simp at hx; omega⟩
      by_cases hm : cfg.protocolType = "IMAGE"
      · rw [route_image_reduce imageCatalog videoCatalog cfg form or hc hm t hts]
        simp only [statusProgresses_append, sp_pre1, sp_trend, sp_single]
        have hbr := imageBranch_bc cfg or (form.productImages ++ form.lookAndFeelImages)
          (buildStructuredPrompt imageCatalog (structuredPromptParamsOf cfg t
            form.productImages.length form.lookAndFeelImages.length)) t
        exact (((h1.append' h2 (by omega) (by omega) (by omega)).append'
          (bc_singleton (le_refl 20) (le_refl 20)) (by omega) (by omega) (by omega)).append'
          hbr (by omega) (by omega) (by omega)).append'
          (bc_singleton (le_refl 100) (le_refl 100)) (by omega) (by omega) (by omega)
      · rcases hvts : videoTrendStep cfg or with e | vt
        · cases e
          rw [route_vtrend_error_reduce imageCatalog videoCatalog cfg form or hc hm t hts hvts]
          simp only [statusProgresses_append, sp_pre1, sp_trend, sp_single, sp_ite, sp_error]
          exact ((((h1.append' h2 (by omega) (by omega) (by omega)).append'
            (bc_singleton (le_refl 20) (le_refl 20)) (by omega) (by omega) (by omega)).append'
            (bc_if_singleton _ (le_refl 25) (le_refl 25)) (by omega) (by omega)
            (by omega)).append' (BoundedChain.nil 25 100) (by omega) (by omega)
            (by omega)).widen (le_refl _) (le_refl _)
        · rw [route_video_ok_reduce imageCatalog videoCatalog cfg form or hc hm t vt hts hvts]
          simp only [statusProgresses_append, sp_pre1, sp_trend, sp_single, sp_ite, sp_pair]
          have htail : BoundedChain 90 95 (statusProgresses (videoTailEvents or.videoGen
              (routeEffectiveDuration cfg form.anchorImages)
              (decide (form.anchorImages.length > 0)))) := by
            rcases hg : or.videoGen with m | r <;> simp only [videoTailEvents, hg]
            · rw [sp_error]
              exact BoundedChain.nil _ _
            · rw [sp_vok]
              exact ⟨by simp [List.chain'_cons], by intro x hx; simp at hx; omega⟩
          exact ((((((h1.append' h2 (by omega) (by omega) (by omega)).append'
            (bc_singleton (le_refl 20) (le_refl 20)) (by omega) (by omega) (by omega)).append'
            (bc_if_singleton _ (le_refl 25) (le_refl 25)) (by omega) (by omega)
            (by omega)).append'
            (⟨by simp [List.chain'_cons], by intro x hx; simp at hx; omega⟩ :
              BoundedChain 30 40 [30, 40]) (by omega) (by omega) (by omega)).append'
            htail (by omega) (by omega) (by omega)).append'
            (bc_singleton (le_refl 100) (le_refl 100)) (by omega) (by omega) (by omega))
  · rw [route, if_pos hc]
    exact BoundedChain.nil _ _

/-- C9 counterexample: an image request with an AI trend selection whose
expansion call throws ends the stream on the request-level error event; its
last status carries progress 12, not 100. -/
theorem C9_counterexample :
    statusProgresses (route (fun _ => none) (fun _ => none)
      { protocolType := "IMAGE", creativeTrendType := some "ai",
        aiTrendDescription := some "neon" }
      {}
      { trendExpansion := .error (), videoTrendExpansion := .ok "",
        variationAi := .ok none,
        imageGen := fun _ => .ok ⟨"image", "f", "n", "m"⟩,
        videoGen := .ok ⟨"video", "f", "n", "m"⟩ }).events = [5, 10, 12] ∧
    (statusProgresses (route (fun _ => none) (fun _ => none)
      { protocolType := "IMAGE", creativeTrendType := some "ai",
        aiTrendDescription := some "neon" }
      {}
      { trendExpansion := .error (), videoTrendExpansion := .ok "",
        variationAi := .ok none,
        imageGen := fun _ => .ok ⟨"image", "f", "n", "m"⟩,
        videoGen := .ok ⟨"video", "f", "n", "m"⟩ }).events).getLast? = some 12 ∧
    (12 : Nat) ≠ 100 := by
  refine ⟨rfl, rfl, by decide⟩

/-- C9 amended: (a) over every request the progress values of the emitted
status events are non-decreasing; (b) when the configuration is present, the
image trend expansion does not throw, and (on the video path) the video trend
expansion does not throw, the last status event before close carries progress
exactly 100 (when a pre-dispatch trend expansion throws, the stream instead
ends on the request-level error event — see the counterexample); (c) in the
image dispatch loop, the status emitted before unit `i` carries progress
exactly `25 + (i * 60) / variantCount`. -/
theorem C9_progress (imageCatalog videoCatalog : PresetCatalog) (cfg : GenerationConfig)
    (form : FormInput) (or : RouteOracles) :
    List.Chain' (· ≤ ·)
      (statusProgresses (route imageCatalog videoCatalog cfg form or).events) ∧
    (form.configPresent = true → TrendOk cfg or →
      (cfg.protocolType = "IMAGE" ∨ VideoTrendOk cfg or) →
      (statusProgresses (route imageCatalog videoCatalog cfg form or).events).getLast? =
        some 100) ∧
    (form.configPresent = true → cfg.protocolType = "IMAGE" → TrendOk cfg or →
      ∀ i, i < (route imageCatalog videoCatalog cfg form or).imageCalls.length →
        stEv ("Generating image " ++ toString (i + 1) ++ " of " ++
            toString (jsOrNat cfg.variantCount 1) ++ "...")
          (25 + i * 60 / jsOrNat cfg.variantCount 1) ∈
          (route imageCatalog videoCatalog cfg form or).events) := by
  refine ⟨(route_bc imageCatalog videoCatalog cfg form or).1, ?_, ?_⟩
  · intro hc ht hv
    obtain ⟨t, hts⟩ := trendStep_ok cfg or ht
    by_cases hm : cfg.protocolType = "IMAGE"
    · rw [route_image_reduce imageCatalog videoCatalog cfg form or hc hm t hts]
      rw [statusProgresses_append, sp_single, List.getLast?_concat]
    · rcases hv with hv | hv
      · exact absurd hv hm
      · obtain ⟨vt, hvts⟩ := videoTrendStep_ok cfg or hv
        rw [route_video_ok_reduce imageCatalog videoCatalog cfg form or hc hm t vt hts hvts]
        rw [statusProgresses_append, sp_single, List.getLast?_concat]
  · intro hc hm ht i hi
    obtain ⟨t, hts⟩ := trendStep_ok cfg or ht
    rw [route_image_reduce imageCatalog videoCatalog cfg form or hc hm t hts] at hi ⊢
    have hi' : i < (imageBranchLoop cfg or (form.productImages ++ form.lookAndFeelImages)
        (buildStructuredPrompt imageCatalog (structuredPromptParamsOf cfg t
          form.productImages.length form.lookAndFeelImages.length)) t).2.1.length := by
      rw [← imageBranch_calls]
      exact hi
    rw [imageBranchLoop] at hi'
    have hmem := imageLoopAux_call_status or.imageGen
      (variantPromptOf (buildStructuredPrompt imageCatalog (structuredPromptParamsOf cfg t
        form.productImages.length form.lookAndFeelImages.length))
        (branchVariationSpecs cfg or t))
      (if (form.productImages ++ form.lookAndFeelImages).length > 0 then
        some (form.productImages ++ form.lookAndFeelImages) else none)
      (jsOrOpt cfg.aspectRatio "9:16") (jsOrNat cfg.variantCount 1)
      (jsOrNat cfg.variantCount 1) 0 i hi'
    simp only [Nat.zero_add] at hmem
    have hmem2 := imageBranch_mem_loop cfg or (form.productImages ++ form.lookAndFeelImages)
      (buildStructuredPrompt imageCatalog (structuredPromptParamsOf cfg t
        form.productImages.length form.lookAndFeelImages.length)) t _
      (by rw [imageBranchLoop]; exact hmem)
    simp only [List.mem_append]
    exact Or.inl (Or.inr hmem2)

/-- Witness for C9's amended theorem: a 3-variant image request with every
call succeeding has non-decreasing progress, ends its statuses on 100, and
emits status 45 before the second unit. -/
theorem C9_witness :
    List.Chain' (· ≤ ·) (statusProgresses (route (fun _ => none) (fun _ => none)
      { protocolType := "IMAGE", variantCount := some 3 }
      {}
      { trendExpansion := .ok "t", videoTrendExpansion := .ok "vt", variationAi := .ok none,
        imageGen := fun _ => .ok ⟨"image", "f", "n", "m"⟩,
        videoGen := .ok ⟨"video", "f", "n", "m"⟩ }).events) ∧
    (statusProgresses (route (fun _ => none) (fun _ => none)
      { protocolType := "IMAGE", variantCount := some 3 }
      {}
      { trendExpansion := .ok "t", videoTrendExpansion := .ok "vt", variationAi := .ok none,
        imageGen := fun _ => .ok ⟨"image", "f", "n", "m"⟩,
        videoGen := .ok ⟨"video", "f", "n", "m"⟩ }).events).getLast? = some 100 ∧
    stEv "Generating image 2 of 3..." 45 ∈ (route (fun _ => none) (fun _ => none)
      { protocolType := "IMAGE", variantCount := some 3 }
      {}
      { trendExpansion := .ok "t", videoTrendExpansion := .ok "vt", variationAi := .ok none,
        imageGen := fun _ => .ok ⟨"image", "f", "n", "m"⟩,
        videoGen := .ok ⟨"video", "f", "n", "m"⟩ }).events := by
  have h := C9_progress (fun _ => none) (fun _ => none)
    { protocolType := "IMAGE", variantCount := some 3 }
    {}
    { trendExpansion := .ok "t", videoTrendExpansion := .ok "vt", variationAi := .ok none,
      imageGen := fun _ => .ok ⟨"image", "f", "n", "m"⟩,
      videoGen := .ok ⟨"video", "f", "n", "m"⟩ }
  refine ⟨h.1, h.2.1 rfl (fun _ => ⟨"t", rfl⟩) (Or.inl rfl), ?_⟩
  have hlen : (route (fun _ => none) (fun _ => none)
      { protocolType := "IMAGE", variantCount := some 3 }
      {}
      { trendExpansion := .ok "t", videoTrendExpansion := .ok "vt", variationAi := .ok none,
        imageGen := fun _ => .ok ⟨"image", "f", "n", "m"⟩,
        videoGen := .ok ⟨"video", "f", "n", "m"⟩ }).imageCalls.length = 3 := by
    have hts : trendStep { protocolType := "IMAGE", variantCount := some 3 }
        { trendExpansion := .ok "t", videoTrendExpansion := .ok "vt", variationAi := .ok none,
          imageGen := fun _ => .ok ⟨"image", "f", "n", "m"⟩,
          videoGen := .ok ⟨"video", "f", "n", "m"⟩ } = .ok none := rfl
    rw [route_image_reduce (fun _ => none) (fun _ => none)
      { protocolType := "IMAGE", variantCount := some 3 }
      {}
      { trendExpansion := .ok "t", videoTrendExpansion := .ok "vt", variationAi := .ok none,
        imageGen := fun _ => .ok ⟨"image", "f", "n", "m"⟩,
        videoGen := .ok ⟨"video", "f", "n", "m"⟩ } rfl rfl none hts]
    show (imageBranch _ _ _ _ _).2.length = 3
    rw [imageBranch_calls, imageBranchLoop]
    obtain ⟨rs, _, _, h3⟩ := imageLoopAux_ok
      (fun _ => (.ok ⟨"image", "f", "n", "m"⟩ : Except String GenerationResult)) _ _ _ _
      (jsOrNat (some 3) 1) 0 (fun k _ _ => ⟨⟨"image", "f", "n", "m"⟩, rfl⟩)
    exact h3
  have h3 := h.2.2 rfl rfl (fun _ => ⟨"t", rfl⟩) 1 (by rw [hlen]; omega)
  exact h3

end TCF
